/-
  Verification of the SKU+ inventory backend (Django, `backend/core/`).

  This file gives a shallow embedding of the two core components of the
  repository and proves the specification claims about them:

  * the expiration-status classifier: `SKU.get_status`, `SKU.lote_mais_proximo`
    and the alert-configuration resolution (`backend/core/models.py`);
  * the spreadsheet importers `EstoqueImportService.processar_grade_020502`
    and `EstoqueImportService.processar_contagens`
    (`backend/core/services.py`).

  Modelling conventions:
  * Calendar dates in the classifier are integers (a day number); the Python
    expression `(lote.data_validade - hoje).days` becomes integer subtraction.
  * Database tables are Lean lists of records.  Fields that the verified code
    neither reads nor writes (audit timestamps, image, category, location,
    cost, supplier, ...) are omitted from the records.
  * Django's `unique_together` constraints are not baked into the list
    representation; where a proof needs them they appear as explicit
    hypotheses on the initial table.
  * `services.py` reads and writes the fields `SKU.fator_conversao`,
    `LoteValidade.estoque_display` and a null `LoteValidade.data_validade`;
    `serializers.py` exposes the same fields.  They are missing from the
    `models.py` snapshot (the migration files carrying them are not part of
    the sources), so the records here follow the importer's usage:
    `fator_conversao` and `estoque_display` are present and `data_validade`
    of an importer lot is an `Option`.
-/
import Mathlib

namespace SkuPlus

/-! ## Classifier data model (`backend/core/models.py`) -/

/-- `ConfiguracaoAlerta` (models.py lines 161-209): alert thresholds, either
global (`unidade = none`) or scoped to one business unit.  `unidade` stores
the unit id; `ativo` is the `BaseModel.ativo` flag. -/
structure ConfiguracaoAlerta where
  unidade : Option Nat
  dias_para_critico : Nat
  dias_para_pre_bloqueio : Nat
  ativo : Bool
  deriving Repr, DecidableEq

/-- `LoteValidade` (models.py lines 391-451) restricted to the fields read by
the classifier.  `data_validade` is a day number (models.py declares the
classifier's date field non-null). -/
structure LoteValidade where
  numero_lote : String
  data_validade : Int
  qtd_estoque : Nat
  ativo : Bool
  deriving Repr, DecidableEq

/-- `UnidadeNegocio` (models.py lines 41-68) together with its reverse
one-to-one `configuracao_alerta` (models.py line 172-180): `some c` when an
`ConfiguracaoAlerta` row with `unidade = this unit` exists (whatever its
`ativo` flag), `none` otherwise.  This is what
`getattr(self.unidade_negocio, 'configuracao_alerta', None)` observes. -/
structure UnidadeNegocio where
  id : Nat
  configuracao_alerta : Option ConfiguracaoAlerta
  deriving Repr, DecidableEq

/-- `SKU` (models.py lines 212-388) restricted to what `get_status` reads:
the owning unit and the lot set (`self.lotes`). -/
structure SKU where
  unidade_negocio : UnidadeNegocio
  lotes : List LoteValidade
  deriving Repr, DecidableEq

/-- Return value of `SKU.get_status` (the dict built at models.py
lines 333-388). -/
structure StatusInfo where
  status : String
  cor : String
  dias_restantes : Option Int
  lote : Option LoteValidade
  deriving Repr, DecidableEq

/-- The lots visible to `lote_mais_proximo`:
`self.lotes.filter(ativo=True, qtd_estoque__gt=0)` (models.py lines 295-298). -/
def lotesDisponiveis (sku : SKU) : List LoteValidade :=
  sku.lotes.filter (fun l => l.ativo && decide (0 < l.qtd_estoque))

/-- One step of selecting the earliest-expiring lot: keep the candidate with
the smaller `data_validade` (on a tie, the earlier row). -/
def escolheMaisProximo (acc : Option LoteValidade) (l : LoteValidade) :
    Option LoteValidade :=
  match acc with
  | none => some l
  | some m => if l.data_validade < m.data_validade then some l else some m

/-- `SKU.lote_mais_proximo` (models.py lines 289-298):
`.order_by('data_validade').first()` on the available lots, i.e. a lot with
the minimum `data_validade` (ties resolved by the store's row order; here the
first minimal lot in list order). -/
def lote_mais_proximo (sku : SKU) : Option LoteValidade :=
  (lotesDisponiveis sku).foldl escolheMaisProximo none

/-- The config-resolution block of `SKU.get_status` (models.py
lines 342-352): caller-supplied config if given; else the unit's own
config (`getattr`, *no* `ativo` filter); else the first row of
`ConfiguracaoAlerta.objects.filter(unidade__isnull=True, ativo=True)`.
`tabela` is the `ConfiguracaoAlerta` table in row order. -/
def configEfetiva (sku : SKU) (tabela : List ConfiguracaoAlerta)
    (config : Option ConfiguracaoAlerta) : Option ConfiguracaoAlerta :=
  match config with
  | some c => some c
  | none =>
    match sku.unidade_negocio.configuracao_alerta with
    | some c => some c
    | none => (tabela.filter (fun c => c.unidade == none && c.ativo)).head?

/-- models.py line 355: `config.dias_para_critico if config else 30`. -/
def diasCritico (config : Option ConfiguracaoAlerta) : Nat :=
  match config with
  | some c => c.dias_para_critico
  | none => 30

/-- models.py line 356: `config.dias_para_pre_bloqueio if config else 45`. -/
def diasPreBloqueio (config : Option ConfiguracaoAlerta) : Nat :=
  match config with
  | some c => c.dias_para_pre_bloqueio
  | none => 45

/-- `SKU.get_status` (models.py lines 324-388).  `hoje` is `date.today()` as
a day number; `tabela` is the `ConfiguracaoAlerta` table backing the global
lookup. -/
def get_status (sku : SKU) (tabela : List ConfiguracaoAlerta)
    (config : Option ConfiguracaoAlerta) (hoje : Int) : StatusInfo :=
  match lote_mais_proximo sku with
  | none =>
    { status := "SEM_ESTOQUE", cor := "cinza",
      dias_restantes := none, lote := none }
  | some lote =>
    let cfg := configEfetiva sku tabela config
    let dias_critico := diasCritico cfg
    let dias_pre_bloqueio := diasPreBloqueio cfg
    let dias_restantes : Int := lote.data_validade - hoje
    if dias_restantes < 0 then
      { status := "VENCIDO", cor := "preto",
        dias_restantes := some dias_restantes, lote := some lote }
    else if dias_restantes ≤ (dias_critico : Int) then
      { status := "CRITICO", cor := "vermelho",
        dias_restantes := some dias_restantes, lote := some lote }
    else if dias_restantes ≤ (dias_pre_bloqueio : Int) then
      { status := "PRE_BLOQUEIO", cor := "amarelo",
        dias_restantes := some dias_restantes, lote := some lote }
    else
      { status := "OK", cor := "verde",
        dias_restantes := some dias_restantes, lote := some lote }

/-! ## Importer data model (`backend/core/services.py`)

The importer operates on the persistent store.  Lots are attached to their
SKU through the natural key `(codigo_sku, unidade_negocio)` — equivalent to
the foreign key under the `unique_together ['codigo_sku', 'unidade_negocio']`
constraint of models.py. -/

/-- A calendar date as produced by `_parse_date` (services.py
lines 117-149). -/
structure Data where
  ano : Nat
  mes : Nat
  dia : Nat
  deriving Repr, DecidableEq

/-- A `SKU` row as the importer reads and writes it (code, unit, description,
unit of measure, conversion factor, active flag). -/
structure SkuRec where
  codigo_sku : String
  unidade_negocio : Nat
  nome_produto : String
  unidade_medida : String
  fator_conversao : Int
  ativo : Bool
  deriving Repr, DecidableEq

/-- A `LoteValidade` row as the importer reads and writes it.  The
`data_validade` of the aggregate "BASE" lot is null, hence the `Option`. -/
structure LoteRec where
  sku_codigo : String
  sku_unidade : Nat
  numero_lote : String
  data_validade : Option Data
  qtd_estoque : Int
  estoque_display : String
  ativo : Bool
  deriving Repr, DecidableEq

/-- The store visible to one import call. -/
structure DB where
  skus : List SkuRec
  lotes : List LoteRec
  deriving Repr, DecidableEq

/-- The mutable fields of `EstoqueImportService` (services.py lines 52-57):
accumulated errors, warnings and the three counters, plus the store. -/
structure ImportState where
  db : DB
  errors : List String
  warnings : List String
  processed : Nat
  created : Nat
  updated : Nat
  deriving Repr, DecidableEq

/-- `_reset_counters` (services.py lines 349-355) followed by binding the
store. -/
def estadoInicial (db : DB) : ImportState :=
  { db := db, errors := [], warnings := [], processed := 0,
    created := 0, updated := 0 }

/-- One row of a Grade 020502 file after the dataframe normalisation of
services.py lines 183-187 (quantities coerced with `fillna`, text columns
defaulted).  `codigo_sku` is `str(cell)`, so a missing value reads "nan". -/
structure GradeRow where
  codigo_sku : String
  nome_produto : String
  unidade_medida : String
  fator_conversao : Int
  estoque_display : String
  qtd_estoque : Int
  deriving Repr, DecidableEq

/-- One row of a Contagens file after the dataframe normalisation of
services.py lines 277-278; `data_validade` is the result of `_parse_date`
on the cell (`none` when no accepted format matches). -/
structure ContagemRow where
  codigo_sku : String
  data_validade : Option Data
  qtd_caixas : Int
  qtd_unidades : Int
  deriving Repr, DecidableEq

/-- Python `str.strip()`: drop leading and trailing whitespace.  (Defined on
the character list so that the kernel can evaluate it; Lean's own
`String.trim` is well-founded recursion the kernel cannot reduce.) -/
def pstrip (s : String) : String :=
  ⟨List.reverse (List.dropWhile Char.isWhitespace
    (List.reverse (List.dropWhile Char.isWhitespace s.data)))⟩

/-- Python `str.lower()` on the character list. -/
def plower (s : String) : String := ⟨s.data.map Char.toLower⟩

/-- Python `str.upper()` on the character list. -/
def pupper (s : String) : String := ⟨s.data.map Char.toUpper⟩

/-- Outcome of one Django `get_or_create`: row created, row found and then
updated in place, or `MultipleObjectsReturned` (several rows matched the
lookup; the per-row guard turns it into a row error). -/
inductive UpTag where
  | criado
  | atualizado
  | multiplo
  deriving Repr, DecidableEq

/-- Django's `get_or_create(lookup, defaults)` followed, on the found branch,
by the field assignments and `save()` of the importer: zero matches append a
fresh row, exactly one match is patched in place, several matches raise. -/
def getOrCreate {α K : Type} [DecidableEq K] (keyOf : α → K) (k : K)
    (patch : α → α) (fresh : α) (l : List α) : List α × UpTag :=
  match l.filter (fun x => decide (keyOf x = k)) with
  | [] => (l ++ [fresh], UpTag.criado)
  | [_] => (l.map (fun x => if keyOf x = k then patch x else x),
            UpTag.atualizado)
  | _ => (l, UpTag.multiplo)

/-- Natural key of a SKU row: `(codigo_sku, unidade_negocio)`
(the `get_or_create` lookup of services.py lines 196-198). -/
def chaveSku (s : SkuRec) : String × Nat :=
  (s.codigo_sku, s.unidade_negocio)

/-- Lookup key of the grade lot upsert (services.py lines 217-220):
`(sku, numero_lote, data_validade)`. -/
def chaveLoteGrade (l : LoteRec) : String × Nat × String × Option Data :=
  (l.sku_codigo, l.sku_unidade, l.numero_lote, l.data_validade)

/-- Lookup key of the contagens lot upsert (services.py lines 316-318):
`(sku, data_validade)` only. -/
def chaveLoteContagem (l : LoteRec) : String × Nat × Option Data :=
  (l.sku_codigo, l.sku_unidade, l.data_validade)

/-- The SKU field assignments of services.py lines 208-211. -/
def patchSkuGrade (r : GradeRow) (s : SkuRec) : SkuRec :=
  { s with nome_produto := pstrip r.nome_produto,
           unidade_medida := pupper (pstrip r.unidade_medida),
           fator_conversao := r.fator_conversao }

/-- The SKU created by services.py lines 196-204 (defaults plus the lookup
fields; `BaseModel.ativo` defaults to true). -/
def freshSkuGrade (codigo : String) (u : Nat) (r : GradeRow) : SkuRec :=
  { codigo_sku := codigo, unidade_negocio := u,
    nome_produto := pstrip r.nome_produto,
    unidade_medida := pupper (pstrip r.unidade_medida),
    fator_conversao := r.fator_conversao, ativo := true }

/-- The BASE-lot field assignments of services.py lines 229-231. -/
def patchLoteGrade (r : GradeRow) (l : LoteRec) : LoteRec :=
  { l with qtd_estoque := r.qtd_estoque,
           estoque_display := pstrip r.estoque_display }

/-- The BASE lot created by services.py lines 217-225. -/
def freshLoteGrade (codigo : String) (u : Nat) (r : GradeRow) : LoteRec :=
  { sku_codigo := codigo, sku_unidade := u, numero_lote := "BASE",
    data_validade := none, qtd_estoque := r.qtd_estoque,
    estoque_display := pstrip r.estoque_display, ativo := true }

/-- `"Linha {idx + 2}: {mensagem}"` (the 1-based row number plus header
offset used by every row message in services.py). -/
def msgLinha (idx : Nat) (m : String) : String :=
  "Linha " ++ toString (idx + 2) ++ ": " ++ m

/-- Message of a `MultipleObjectsReturned` caught by the per-row guard. -/
def msgMultiplo (idx : Nat) : String :=
  msgLinha idx "get retornou mais de um objeto"

/-- The BASE-lot upsert of a grade row (services.py lines 216-233):
`get_or_create` on `(sku, 'BASE', null)`, overwrite of the quantity when the
lot already exists, then `processed_count += 1`. -/
def upsertLoteBase (u : Nat) (codigo : String) (r : GradeRow) (idx : Nat)
    (st : ImportState) : ImportState :=
  let res := getOrCreate chaveLoteGrade (codigo, u, "BASE", none)
    (patchLoteGrade r) (freshLoteGrade codigo u r) st.db.lotes
  match res.2 with
  | UpTag.multiplo => { st with errors := st.errors ++ [msgMultiplo idx] }
  | _ => { st with db := { st.db with lotes := res.1 },
                   processed := st.processed + 1 }

/-- One iteration of the grade row loop (services.py lines 189-236): skip on
a blank or "nan" code, upsert the SKU (counting created/updated), then
upsert its BASE lot; any `MultipleObjectsReturned` becomes a row error. -/
def aplicarLinhaGrade (u : Nat) (st : ImportState) (linha : Nat × GradeRow) :
    ImportState :=
  let idx := linha.1
  let r := linha.2
  let codigo := pstrip r.codigo_sku
  if codigo = "" ∨ codigo = "nan" then st
  else
    let res := getOrCreate chaveSku (codigo, u) (patchSkuGrade r)
      (freshSkuGrade codigo u r) st.db.skus
    match res.2 with
    | UpTag.multiplo => { st with errors := st.errors ++ [msgMultiplo idx] }
    | UpTag.criado =>
      upsertLoteBase u codigo r idx
        { st with db := { st.db with skus := res.1 },
                  created := st.created + 1 }
    | UpTag.atualizado =>
      upsertLoteBase u codigo r idx
        { st with db := { st.db with skus := res.1 },
                  updated := st.updated + 1 }

/-- The grade row loop over the enumerated dataframe rows. -/
def processarLinhasGrade (u : Nat) (st : ImportState)
    (linhas : List (Nat × GradeRow)) : ImportState :=
  linhas.foldl (aplicarLinhaGrade u) st

/-- `VAL_<YYYYMMDD>` (services.py line 313). -/
def pad2 (n : Nat) : String :=
  if n < 10 then "0" ++ toString n else toString n

/-- Zero padding of the year in `strftime('%Y%m%d')`. -/
def pad4 (n : Nat) : String :=
  if n < 10 then "000" ++ toString n
  else if n < 100 then "00" ++ toString n
  else if n < 1000 then "0" ++ toString n
  else toString n

/-- The synthetic lot number derived from the measured expiration date. -/
def numeroLoteVal (d : Data) : String :=
  "VAL_" ++ pad4 d.ano ++ pad2 d.mes ++ pad2 d.dia

/-- The contagens lot field assignments (services.py lines 328-329). -/
def patchLoteContagem (numero : String) (qtd : Int) (l : LoteRec) : LoteRec :=
  { l with qtd_estoque := qtd, numero_lote := numero }

/-- The contagens lot created by services.py lines 316-323 (defaults of the
omitted fields: empty display text, active). -/
def freshLoteContagem (codigo : String) (u : Nat) (numero : String) (d : Data)
    (qtd : Int) : LoteRec :=
  { sku_codigo := codigo, sku_unidade := u, numero_lote := numero,
    data_validade := some d, qtd_estoque := qtd, estoque_display := "",
    ativo := true }

/-- One iteration of the contagens row loop (services.py lines 280-338):
skip on a blank code; warn and skip when no active SKU matches or the date
does not parse; otherwise compute `qtd_caixas * fator_conversao +
qtd_unidades` and upsert the lot keyed on `(sku, data_validade)`. -/
def aplicarLinhaContagem (u : Nat) (st : ImportState)
    (linha : Nat × ContagemRow) : ImportState :=
  let idx := linha.1
  let r := linha.2
  let codigo := pstrip r.codigo_sku
  if codigo = "" ∨ codigo = "nan" then st
  else
    match st.db.skus.filter
        (fun s => decide (chaveSku s = (codigo, u)) && s.ativo) with
    | [] =>
      { st with warnings := st.warnings ++
          [msgLinha idx ("SKU " ++ codigo ++ " nao encontrado")] }
    | [sku] =>
      match r.data_validade with
      | none =>
        { st with warnings := st.warnings ++
            [msgLinha idx ("Data de validade invalida para SKU " ++ codigo)] }
      | some d =>
        let qtd_total := r.qtd_caixas * sku.fator_conversao + r.qtd_unidades
        let numero := numeroLoteVal d
        let res := getOrCreate chaveLoteContagem (codigo, u, some d)
          (patchLoteContagem numero qtd_total)
          (freshLoteContagem codigo u numero d qtd_total) st.db.lotes
        match res.2 with
        | UpTag.multiplo => { st with errors := st.errors ++ [msgMultiplo idx] }
        | UpTag.criado =>
          { st with db := { st.db with lotes := res.1 },
                    created := st.created + 1,
                    processed := st.processed + 1 }
        | UpTag.atualizado =>
          { st with db := { st.db with lotes := res.1 },
                    updated := st.updated + 1,
                    processed := st.processed + 1 }
    | _ => { st with errors := st.errors ++ [msgMultiplo idx] }

/-- The contagens row loop over the enumerated dataframe rows. -/
def processarLinhasContagem (u : Nat) (st : ImportState)
    (linhas : List (Nat × ContagemRow)) : ImportState :=
  linhas.foldl (aplicarLinhaContagem u) st

/-- `COLUNAS_GRADE_020502` (services.py lines 28-35). -/
def COLUNAS_GRADE_020502 : List (String × String) :=
  [("Produto", "codigo_sku"), ("Descricao", "nome_produto"),
   ("Unidade", "unidade_medida"), ("Fator", "fator_conversao"),
   ("Inventario", "estoque_display"), ("Qtd Contagem", "qtd_estoque")]

/-- `COLUNAS_CONTAGENS` (services.py lines 38-43). -/
def COLUNAS_CONTAGENS : List (String × String) :=
  [("Codigo Item", "codigo_sku"), ("Validade Aferida", "data_validade"),
   ("Quantidade Cx", "qtd_caixas"), ("Quantidade Unidade", "qtd_unidades")]

/-- The rename map of `_normalize_columns` (services.py lines 107-113):
for each mapping entry, the first stripped header matching the source
case-insensitively is renamed to the target. -/
def mapaRenomeia (mapping : List (String × String)) (cols : List String) :
    List (String × String) :=
  mapping.foldr
    (fun par acc =>
      match cols.find? (fun c => plower c == plower par.1) with
      | some c => (c, par.2) :: acc
      | none => acc)
    []

/-- `_normalize_columns` (services.py lines 93-115) at the level of the
header list: strip every header, then apply the rename map. -/
def renomeiaColunas (mapping : List (String × String)) (cols : List String) :
    List String :=
  let stripped := cols.map pstrip
  stripped.map
    (fun c =>
      match (mapaRenomeia mapping stripped).find? (fun par => par.1 == c) with
      | some par => par.2
      | none => c)

/-- The required-column check (services.py lines 177-180 and 271-274). -/
def colunasFaltantes (required : List String) (cols : List String) :
    List String :=
  required.filter (fun c => !(cols.contains c))

/-- The dictionary built by `_build_result` (services.py lines 357-369),
without the constant `tipo`/`unidade`/`timestamp` bookkeeping; `error` is
the extra key of the top-level failure dictionary. -/
structure ImportResult where
  success : Bool
  processed : Nat
  created : Nat
  updated : Nat
  errors : List String
  warnings : List String
  error : Option String
  deriving Repr, DecidableEq

/-- `_build_result`: `success = (no errors) or (processed > 0)`. -/
def buildResult (st : ImportState) : ImportResult :=
  { success := st.errors.isEmpty || decide (0 < st.processed),
    processed := st.processed, created := st.created,
    updated := st.updated, errors := st.errors,
    warnings := st.warnings, error := none }

/-- The failure dictionary returned by the top-level `except` branches
(services.py lines 240-245 and 342-347): `success=False, processed=0`. -/
def resultadoFalha (m : String) : ImportResult :=
  { success := false, processed := 0, created := 0, updated := 0,
    errors := [], warnings := [], error := some m }

/-- `processar_grade_020502` (services.py lines 151-245) from the parsed
dataframe on: normalise the headers, fail the whole call (leaving the store
untouched — the `@transaction.atomic` boundary) when a required column is
missing, otherwise run the row loop and aggregate.  Returns the result
dictionary and the store after the call. -/
def processar_grade_020502 (u : Nat) (cols : List String)
    (linhas : List GradeRow) (db : DB) : ImportResult × DB :=
  let ncols := renomeiaColunas COLUNAS_GRADE_020502 cols
  if colunasFaltantes ["codigo_sku", "qtd_estoque"] ncols = [] then
    let st := processarLinhasGrade u (estadoInicial db) linhas.enum
    (buildResult st, st.db)
  else
    (resultadoFalha "Colunas obrigatorias nao encontradas", db)

/-- `processar_contagens` (services.py lines 247-347) from the parsed
dataframe on; same structure as the grade processor. -/
def processar_contagens (u : Nat) (cols : List String)
    (linhas : List ContagemRow) (db : DB) : ImportResult × DB :=
  let ncols := renomeiaColunas COLUNAS_CONTAGENS cols
  if colunasFaltantes ["codigo_sku", "data_validade"] ncols = [] then
    let st := processarLinhasContagem u (estadoInicial db) linhas.enum
    (buildResult st, st.db)
  else
    (resultadoFalha "Colunas obrigatorias nao encontradas", db)

/-! ## A little theory of keyed upserts

The two stores touched by the grade importer (SKUs keyed on
`(codigo_sku, unidade_negocio)`, BASE lots keyed on
`(sku, numero_lote, data_validade)`) evolve by `getOrCreate` steps.  The
following abstraction captures one such step as an operation carrying its
lookup key, its found-branch field assignments and its created row; the
idempotence of re-importing a grade file is proved generically over
sequences of such operations. -/

/-- Number of rows of `l` whose key is `k`. -/
def conta {α K : Type} [DecidableEq K] (keyOf : α → K) (l : List α)
    (k : K) : Nat :=
  (l.filter (fun x => decide (keyOf x = k))).length

/-- One keyed upsert: lookup key, in-place update, created row. -/
structure StoreOp (α K : Type) where
  key : K
  patch : α → α
  fresh : α

/-- The store after one `getOrCreate` step. -/
def aplicaOp {α K : Type} [DecidableEq K] (keyOf : α → K) (l : List α)
    (o : StoreOp α K) : List α :=
  (getOrCreate keyOf o.key o.patch o.fresh l).1

/-- The store after a sequence of `getOrCreate` steps. -/
def corre {α K : Type} [DecidableEq K] (keyOf : α → K) (l : List α)
    (ops : List (StoreOp α K)) : List α :=
  ops.foldl (aplicaOp keyOf) l

/-- All the operations of a sequence applied to one row: each operation
patches the row exactly when its key matches. -/
def aplicaElem {α K : Type} [DecidableEq K] (keyOf : α → K)
    (ops : List (StoreOp α K)) (x : α) : α :=
  ops.foldl (fun y o => if keyOf y = o.key then o.patch y else y) x

/-- The operations of a sequence whose key is `k`. -/
def opsPara {α K : Type} [DecidableEq K] (ops : List (StoreOp α K))
    (k : K) : List (StoreOp α K) :=
  ops.filter (fun o => decide (o.key = k))

/-- The algebra shared by the grade importer's upserts: patches do not move
a row to another key, a created row sits at the operation's key, a later
patch overwrites an earlier one, and patching a row just created by a
same-key operation is the same as creating it directly. -/
def OpsBoas {α K : Type} (keyOf : α → K) (ops : List (StoreOp α K)) : Prop :=
  (∀ o ∈ ops, ∀ x, keyOf (o.patch x) = keyOf x) ∧
  (∀ o ∈ ops, keyOf o.fresh = o.key) ∧
  (∀ o ∈ ops, ∀ o2 ∈ ops, ∀ x, o.patch (o2.patch x) = o.patch x) ∧
  (∀ o ∈ ops, ∀ o2 ∈ ops, o.key = o2.key → o.patch o2.fresh = o.fresh)

/-- A grade row that is not skipped by the blank/"nan" guard of
services.py lines 191-193. -/
def linhaGradeValida (r : GradeRow) : Bool :=
  decide ¬(pstrip r.codigo_sku = "" ∨ pstrip r.codigo_sku = "nan")

/-- The SKU upsert performed by one grade row. -/
def opSkuGrade (u : Nat) (r : GradeRow) : StoreOp SkuRec (String × Nat) :=
  { key := (pstrip r.codigo_sku, u), patch := patchSkuGrade r,
    fresh := freshSkuGrade (pstrip r.codigo_sku) u r }

/-- The BASE-lot upsert performed by one grade row. -/
def opLoteGrade (u : Nat) (r : GradeRow) :
    StoreOp LoteRec (String × Nat × String × Option Data) :=
  { key := (pstrip r.codigo_sku, u, "BASE", none), patch := patchLoteGrade r,
    fresh := freshLoteGrade (pstrip r.codigo_sku) u r }

/-- The SKU upserts of the non-skipped rows of a grade file. -/
def opsSkuGrade (u : Nat) (linhas : List GradeRow) :
    List (StoreOp SkuRec (String × Nat)) :=
  (linhas.filter linhaGradeValida).map (opSkuGrade u)

/-- The BASE-lot upserts of the non-skipped rows of a grade file. -/
def opsLoteGrade (u : Nat) (linhas : List GradeRow) :
    List (StoreOp LoteRec (String × Nat × String × Option Data)) :=
  (linhas.filter linhaGradeValida).map (opLoteGrade u)

/-! ## Lemmas about the earliest-lot selection -/

lemma escolheMaisProximo_foldl_mem :
    ∀ (l : List LoteValidade) (acc : Option LoteValidade) (r : LoteValidade),
      l.foldl escolheMaisProximo acc = some r → acc = some r ∨ r ∈ l := by
  intro l
  induction l with
  | nil => intro acc r h; exact Or.inl h
  | cons x xs ih =>
    intro acc r h
    rcases ih (escolheMaisProximo acc x) r h with h1 | h1
    · cases acc with
      | none =>
        simp only [escolheMaisProximo] at h1
        exact Or.inr (by simp [← Option.some_inj.mp h1])
      | some m =>
        simp only [escolheMaisProximo] at h1
        by_cases hx : x.data_validade < m.data_validade
        · rw [if_pos hx] at h1
          exact Or.inr (by simp [← Option.some_inj.mp h1])
        · rw [if_neg hx] at h1
          exact Or.inl h1
    · exact Or.inr (List.mem_cons_of_mem x h1)

lemma escolheMaisProximo_foldl_min :
    ∀ (l : List LoteValidade) (acc : Option LoteValidade) (r : LoteValidade),
      l.foldl escolheMaisProximo acc = some r →
      (∀ m, acc = some m → r.data_validade ≤ m.data_validade) ∧
      (∀ x ∈ l, r.data_validade ≤ x.data_validade) := by
  intro l
  induction l with
  | nil =>
    intro acc r h
    refine ⟨fun m hm => ?_, fun x hx => absurd hx (List.not_mem_nil x)⟩
    rw [hm] at h
    rw [Option.some_inj.mp h]
  | cons x xs ih =>
    intro acc r h
    have step := ih (escolheMaisProximo acc x) r h
    constructor
    · intro m hm
      subst hm
      simp only [escolheMaisProximo] at step
      by_cases hx : x.data_validade < m.data_validade
      · have := step.1 x (by rw [if_pos hx])
        omega
      · exact step.1 m (by rw [if_neg hx])
    · intro y hy
      rcases List.mem_cons.mp hy with rfl | hy
      · cases acc with
        | none => exact step.1 y rfl
        | some m =>
          simp only [escolheMaisProximo] at step
          by_cases hx : y.data_validade < m.data_validade
          · exact step.1 y (by rw [if_pos hx])
          · have := step.1 m (by rw [if_neg hx])
            omega
      · exact step.2 y hy

/-! ## Claim theorems for the status classifier -/

/-- C1: for a product with a nearest lot and an effective configuration whose
thresholds satisfy `critical_days < pre_block_days`, `get_status` classifies
`days_remaining = lot.expiration_date - today` by first match in order:
negative gives VENCIDO (black), `≤ critical_days` gives CRITICO (red),
`≤ pre_block_days` gives PRE_BLOQUEIO (amber), otherwise OK (green); in
particular `days_remaining = critical_days` is CRITICO and
`days_remaining = critical_days + 1 ≤ pre_block_days` is PRE_BLOQUEIO. -/
theorem get_status_classifica_por_faixas
    (sku : SKU) (tabela : List ConfiguracaoAlerta)
    (config : Option ConfiguracaoAlerta) (hoje : Int) (lote : LoteValidade)
    (hlote : lote_mais_proximo sku = some lote)
    (hcfg : diasCritico (configEfetiva sku tabela config) <
            diasPreBloqueio (configEfetiva sku tabela config)) :
    (lote.data_validade - hoje < 0 →
      get_status sku tabela config hoje =
        ⟨"VENCIDO", "preto", some (lote.data_validade - hoje), some lote⟩) ∧
    (0 ≤ lote.data_validade - hoje →
      lote.data_validade - hoje ≤
          (diasCritico (configEfetiva sku tabela config) : Int) →
      get_status sku tabela config hoje =
        ⟨"CRITICO", "vermelho", some (lote.data_validade - hoje), some lote⟩) ∧
    ((diasCritico (configEfetiva sku tabela config) : Int) <
          lote.data_validade - hoje →
      lote.data_validade - hoje ≤
          (diasPreBloqueio (configEfetiva sku tabela config) : Int) →
      get_status sku tabela config hoje =
        ⟨"PRE_BLOQUEIO", "amarelo", some (lote.data_validade - hoje),
          some lote⟩) ∧
    ((diasPreBloqueio (configEfetiva sku tabela config) : Int) <
          lote.data_validade - hoje →
      get_status sku tabela config hoje =
        ⟨"OK", "verde", some (lote.data_validade - hoje), some lote⟩) ∧
    (lote.data_validade - hoje =
        (diasCritico (configEfetiva sku tabela config) : Int) →
      (get_status sku tabela config hoje).status = "CRITICO") ∧
    (lote.data_validade - hoje =
        (diasCritico (configEfetiva sku tabela config) : Int) + 1 →
      lote.data_validade - hoje ≤
          (diasPreBloqueio (configEfetiva sku tabela config) : Int) →
      (get_status sku tabela config hoje).status = "PRE_BLOQUEIO") := by
  refine ⟨?_, ?_, ?_, ?_, ?_, ?_⟩ <;>
    (intros; simp only [get_status, hlote]; split_ifs <;> first | rfl | omega)

/-- Witness for C1: one lot expiring in 10 days, no stored configuration, so
the default thresholds 30/45 make it CRITICO (the spec's own scenario). -/
theorem get_status_classifica_por_faixas_witness :
    lote_mais_proximo ⟨⟨1, none⟩, [⟨"L1", 10, 5, true⟩]⟩ =
        some ⟨"L1", 10, 5, true⟩ ∧
    diasCritico (configEfetiva ⟨⟨1, none⟩, [⟨"L1", 10, 5, true⟩]⟩ [] none) <
      diasPreBloqueio
        (configEfetiva ⟨⟨1, none⟩, [⟨"L1", 10, 5, true⟩]⟩ [] none) ∧
    get_status ⟨⟨1, none⟩, [⟨"L1", 10, 5, true⟩]⟩ [] none 0 =
      ⟨"CRITICO", "vermelho", some 10, some ⟨"L1", 10, 5, true⟩⟩ :=
  ⟨by decide, by decide,
    (get_status_classifica_por_faixas ⟨⟨1, none⟩, [⟨"L1", 10, 5, true⟩]⟩ []
        none 0 ⟨"L1", 10, 5, true⟩ (by decide) (by decide)).2.1
      (by decide) (by decide)⟩

/-- C2: `get_status` resolves the effective configuration by precedence:
the caller-supplied config when given (and then the stored tables are
irrelevant); else the unit's own config when present (and then the global
table is irrelevant); else the first active global row; else the defaults
30/45 via `diasCritico`/`diasPreBloqueio`. -/
theorem get_status_precedencia_config
    (sku : SKU) (tabela : List ConfiguracaoAlerta) :
    (∀ c, configEfetiva sku tabela (some c) = some c) ∧
    (∀ c hoje tabela2,
      get_status sku tabela (some c) hoje = get_status sku tabela2 (some c) hoje) ∧
    (∀ uc, sku.unidade_negocio.configuracao_alerta = some uc →
      configEfetiva sku tabela none = some uc ∧
      ∀ hoje tabela2,
        get_status sku tabela none hoje = get_status sku tabela2 none hoje) ∧
    (sku.unidade_negocio.configuracao_alerta = none →
      configEfetiva sku tabela none =
        (tabela.filter (fun c => c.unidade == none && c.ativo)).head?) ∧
    diasCritico none = 30 ∧ diasPreBloqueio none = 45 := by
  refine ⟨fun c => rfl, ?_, ?_, ?_, rfl, rfl⟩
  · intro c hoje tabela2
    simp only [get_status, configEfetiva]
  · intro uc huc
    refine ⟨by simp only [configEfetiva, huc], ?_⟩
    intro hoje tabela2
    simp only [get_status, configEfetiva, huc]
  · intro hnone
    simp only [configEfetiva, hnone]

/-- Witness for C2: a unit config 5/7 beats a conflicting active global
config, and with no configs at all the defaults 30/45 apply. -/
theorem get_status_precedencia_config_witness :
    (⟨⟨1, some ⟨some 1, 5, 7, true⟩⟩, []⟩ : SKU).unidade_negocio.configuracao_alerta =
        some ⟨some 1, 5, 7, true⟩ ∧
    configEfetiva ⟨⟨1, some ⟨some 1, 5, 7, true⟩⟩, []⟩ [⟨none, 30, 45, true⟩]
        none = some ⟨some 1, 5, 7, true⟩ :=
  ⟨rfl,
    ((get_status_precedencia_config ⟨⟨1, some ⟨some 1, 5, 7, true⟩⟩, []⟩
          [⟨none, 30, 45, true⟩]).2.2.1
        ⟨some 1, 5, 7, true⟩ rfl).1⟩

/-- C10: when the unit has its own stored config, `get_status` without a
caller config uses it even when its `ativo` flag is false (so deactivating
a unit config does not fall back to the global one), while the global config
is only ever selected when it is active. -/
theorem get_status_config_unidade_inativa
    (sku : SKU) (tabela : List ConfiguracaoAlerta) :
    (∀ uc, sku.unidade_negocio.configuracao_alerta = some uc →
      uc.ativo = false →
      configEfetiva sku tabela none = some uc ∧
      ∀ hoje, get_status sku tabela none hoje =
        get_status sku tabela (some uc) hoje) ∧
    (sku.unidade_negocio.configuracao_alerta = none →
      ∀ g, configEfetiva sku tabela none = some g →
        g.ativo = true ∧ g.unidade = none) := by
  constructor
  · intro uc huc _
    refine ⟨by simp only [configEfetiva, huc], ?_⟩
    intro hoje
    simp only [get_status, configEfetiva, huc]
  · intro hnone g hg
    simp only [configEfetiva, hnone] at hg
    have hmem : g ∈ tabela.filter (fun c => c.unidade == none && c.ativo) :=
      List.mem_of_mem_head? hg
    have := (List.mem_filter.mp hmem).2
    simp only [Bool.and_eq_true, beq_iff_eq] at this
    exact ⟨this.2, this.1⟩

/-- Witness for C10: an inactive unit config 5/7 is still selected over an
active global config, and classification follows its thresholds. -/
theorem get_status_config_unidade_inativa_witness :
    (⟨⟨1, some ⟨some 1, 5, 7, false⟩⟩, []⟩ : SKU).unidade_negocio.configuracao_alerta =
        some ⟨some 1, 5, 7, false⟩ ∧
    (⟨some 1, 5, 7, false⟩ : ConfiguracaoAlerta).ativo = false ∧
    configEfetiva ⟨⟨1, some ⟨some 1, 5, 7, false⟩⟩, []⟩ [⟨none, 30, 45, true⟩]
        none = some ⟨some 1, 5, 7, false⟩ :=
  ⟨rfl, rfl,
    (((get_status_config_unidade_inativa ⟨⟨1, some ⟨some 1, 5, 7, false⟩⟩, []⟩
          [⟨none, 30, 45, true⟩]).1 ⟨some 1, 5, 7, false⟩ rfl) rfl).1⟩

/-- C6: a product with no active positive-quantity lot is classified
SEM_ESTOQUE (grey, null days, null lot) for every configuration; otherwise
the reported lot is an active positive-quantity lot of the product with the
minimum expiration date. -/
theorem get_status_sem_estoque_e_lote_minimo
    (sku : SKU) (tabela : List ConfiguracaoAlerta)
    (config : Option ConfiguracaoAlerta) (hoje : Int) :
    ((∀ l ∈ sku.lotes, ¬(l.ativo = true ∧ 0 < l.qtd_estoque)) →
      get_status sku tabela config hoje =
        ⟨"SEM_ESTOQUE", "cinza", none, none⟩) ∧
    (∀ lote, lote_mais_proximo sku = some lote →
      (get_status sku tabela config hoje).lote = some lote ∧
      lote ∈ sku.lotes ∧ lote.ativo = true ∧ 0 < lote.qtd_estoque ∧
      ∀ l ∈ sku.lotes, l.ativo = true → 0 < l.qtd_estoque →
        lote.data_validade ≤ l.data_validade) := by
  constructor
  · intro hvazio
    have hnil : lotesDisponiveis sku = [] := by
      simp only [lotesDisponiveis, List.filter_eq_nil_iff]
      intro l hl
      have := hvazio l hl
      simp only [Bool.and_eq_true, decide_eq_true_eq, not_and]
      intro ha
      exact fun hq => this ⟨ha, hq⟩
    simp only [get_status, lote_mais_proximo, hnil, List.foldl_nil]
  · intro lote hlote
    have hmem0 : lote ∈ lotesDisponiveis sku := by
      rcases escolheMaisProximo_foldl_mem (lotesDisponiveis sku) none lote
          hlote with h | h
      · exact absurd h (by simp)
      · exact h
    have hmem := List.mem_filter.mp hmem0
    have hprops := hmem.2
    simp only [Bool.and_eq_true, decide_eq_true_eq] at hprops
    have hmin := (escolheMaisProximo_foldl_min (lotesDisponiveis sku) none
      lote hlote).2
    refine ⟨by simp only [get_status, hlote]; split_ifs <;> rfl,
      hmem.1, hprops.1, hprops.2, ?_⟩
    intro l hl ha hq
    exact hmin l (List.mem_filter.mpr ⟨hl, by simp [ha, hq]⟩)

/-- Witness for C6: a product whose only lots are inactive or empty is
SEM_ESTOQUE; a product with one available lot reports that lot. -/
theorem get_status_sem_estoque_e_lote_minimo_witness :
    get_status ⟨⟨1, none⟩, [⟨"A", 3, 0, true⟩, ⟨"B", 4, 9, false⟩]⟩ [] none 0 =
      ⟨"SEM_ESTOQUE", "cinza", none, none⟩ ∧
    (get_status ⟨⟨1, none⟩, [⟨"A", 9, 2, true⟩, ⟨"B", 4, 0, true⟩]⟩ [] none
        0).lote = some ⟨"A", 9, 2, true⟩ :=
  ⟨(get_status_sem_estoque_e_lote_minimo
        ⟨⟨1, none⟩, [⟨"A", 3, 0, true⟩, ⟨"B", 4, 9, false⟩]⟩ [] none 0).1
      (by decide),
    (((get_status_sem_estoque_e_lote_minimo
          ⟨⟨1, none⟩, [⟨"A", 9, 2, true⟩, ⟨"B", 4, 0, true⟩]⟩ [] none 0).2
        ⟨"A", 9, 2, true⟩) (by decide)).1⟩

/-! ## Claim theorems for the importer: failure handling -/

/-- C4: for both import calls, a top-level failure (the missing-column
check, which fires before any row is written) returns the failure
dictionary with `success=False`, `processed=0` and leaves the store
untouched; without such a failure the call returns the row loop's final
store (all row writes commit together) and the aggregated result. -/
theorem importacao_atomica
    (u : Nat) (cols colsC : List String) (linhasG : List GradeRow)
    (linhasC : List ContagemRow) (db dbC : DB) :
    (colunasFaltantes ["codigo_sku", "qtd_estoque"]
        (renomeiaColunas COLUNAS_GRADE_020502 cols) ≠ [] →
      processar_grade_020502 u cols linhasG db =
        (resultadoFalha "Colunas obrigatorias nao encontradas", db) ∧
      (processar_grade_020502 u cols linhasG db).1.success = false ∧
      (processar_grade_020502 u cols linhasG db).1.processed = 0) ∧
    (colunasFaltantes ["codigo_sku", "qtd_estoque"]
        (renomeiaColunas COLUNAS_GRADE_020502 cols) = [] →
      (processar_grade_020502 u cols linhasG db).1.error = none ∧
      (processar_grade_020502 u cols linhasG db).2 =
        (processarLinhasGrade u (estadoInicial db) linhasG.enum).db ∧
      (processar_grade_020502 u cols linhasG db).1 =
        buildResult (processarLinhasGrade u (estadoInicial db) linhasG.enum)) ∧
    (colunasFaltantes ["codigo_sku", "data_validade"]
        (renomeiaColunas COLUNAS_CONTAGENS colsC) ≠ [] →
      processar_contagens u colsC linhasC dbC =
        (resultadoFalha "Colunas obrigatorias nao encontradas", dbC) ∧
      (processar_contagens u colsC linhasC dbC).1.success = false ∧
      (processar_contagens u colsC linhasC dbC).1.processed = 0) ∧
    (colunasFaltantes ["codigo_sku", "data_validade"]
        (renomeiaColunas COLUNAS_CONTAGENS colsC) = [] →
      (processar_contagens u colsC linhasC dbC).1.error = none ∧
      (processar_contagens u colsC linhasC dbC).2 =
        (processarLinhasContagem u (estadoInicial dbC) linhasC.enum).db ∧
      (processar_contagens u colsC linhasC dbC).1 =
        buildResult (processarLinhasContagem u (estadoInicial dbC) linhasC.enum)) := by
  refine ⟨fun h => ?_, fun h => ?_, fun h => ?_, fun h => ?_⟩
  · simp only [processar_grade_020502]
    rw [if_neg h]
    exact ⟨rfl, rfl, rfl⟩
  · simp only [processar_grade_020502]
    rw [if_pos h]
    exact ⟨rfl, rfl, rfl⟩
  · simp only [processar_contagens]
    rw [if_neg h]
    exact ⟨rfl, rfl, rfl⟩
  · simp only [processar_contagens]
    rw [if_pos h]
    exact ⟨rfl, rfl, rfl⟩

/-- Witness for C4: a grade file missing the quantity column fails and
leaves a one-SKU store untouched; with both columns present the call
commits the row loop's store. -/
theorem importacao_atomica_witness :
    colunasFaltantes ["codigo_sku", "qtd_estoque"]
        (renomeiaColunas COLUNAS_GRADE_020502 ["Produto"]) ≠ [] ∧
    processar_grade_020502 7 ["Produto"] [⟨"P9", "X", "UN", 1, "", 4⟩]
        ⟨[⟨"P1", 7, "Coca", "UN", 6, true⟩], []⟩ =
      (resultadoFalha "Colunas obrigatorias nao encontradas",
        ⟨[⟨"P1", 7, "Coca", "UN", 6, true⟩], []⟩) :=
  ⟨by decide,
    ((importacao_atomica 7 ["Produto"] [] [⟨"P9", "X", "UN", 1, "", 4⟩] []
          ⟨[⟨"P1", 7, "Coca", "UN", 6, true⟩], []⟩ ⟨[], []⟩).1
        (by decide)).1⟩

/-- C5: whenever an import call reaches result aggregation, its success flag
equals `errors = [] OR processed > 0`; concretely, a three-row contagens
batch whose middle row has an unparseable date gives `processed = 2`, one
warning, no error and `success = true`. -/
theorem resultado_sucesso_formula
    (u : Nat) (cols colsC : List String) (linhasG : List GradeRow)
    (linhasC : List ContagemRow) (db dbC : DB) :
    (colunasFaltantes ["codigo_sku", "qtd_estoque"]
        (renomeiaColunas COLUNAS_GRADE_020502 cols) = [] →
      (processar_grade_020502 u cols linhasG db).1.success =
        ((processar_grade_020502 u cols linhasG db).1.errors.isEmpty ||
          decide (0 < (processar_grade_020502 u cols linhasG db).1.processed))) ∧
    (colunasFaltantes ["codigo_sku", "data_validade"]
        (renomeiaColunas COLUNAS_CONTAGENS colsC) = [] →
      (processar_contagens u colsC linhasC dbC).1.success =
        ((processar_contagens u colsC linhasC dbC).1.errors.isEmpty ||
          decide (0 < (processar_contagens u colsC linhasC dbC).1.processed))) ∧
    ((processar_contagens 7 ["Codigo Item", "Validade Aferida"]
        [⟨"P1", some ⟨2025, 3, 7⟩, 4, 2⟩, ⟨"P1", none, 1, 0⟩,
         ⟨"P1", some ⟨2025, 4, 1⟩, 0, 3⟩]
        ⟨[⟨"P1", 7, "Coca", "UN", 6, true⟩], []⟩).1.processed = 2 ∧
      (processar_contagens 7 ["Codigo Item", "Validade Aferida"]
        [⟨"P1", some ⟨2025, 3, 7⟩, 4, 2⟩, ⟨"P1", none, 1, 0⟩,
         ⟨"P1", some ⟨2025, 4, 1⟩, 0, 3⟩]
        ⟨[⟨"P1", 7, "Coca", "UN", 6, true⟩], []⟩).1.warnings.length = 1 ∧
      (processar_contagens 7 ["Codigo Item", "Validade Aferida"]
        [⟨"P1", some ⟨2025, 3, 7⟩, 4, 2⟩, ⟨"P1", none, 1, 0⟩,
         ⟨"P1", some ⟨2025, 4, 1⟩, 0, 3⟩]
        ⟨[⟨"P1", 7, "Coca", "UN", 6, true⟩], []⟩).1.errors.length = 0 ∧
      (processar_contagens 7 ["Codigo Item", "Validade Aferida"]
        [⟨"P1", some ⟨2025, 3, 7⟩, 4, 2⟩, ⟨"P1", none, 1, 0⟩,
         ⟨"P1", some ⟨2025, 4, 1⟩, 0, 3⟩]
        ⟨[⟨"P1", 7, "Coca", "UN", 6, true⟩], []⟩).1.success = true) := by
  refine ⟨fun h => ?_, fun h => ?_, by decide⟩
  · simp only [processar_grade_020502]
    rw [if_pos h]
    rfl
  · simp only [processar_contagens]
    rw [if_pos h]
    rfl

/-- Witness for C5: the success formula applied to a concrete error-free
one-row grade import. -/
theorem resultado_sucesso_formula_witness :
    colunasFaltantes ["codigo_sku", "qtd_estoque"]
        (renomeiaColunas COLUNAS_GRADE_020502 ["Produto", "Qtd Contagem"]) = [] ∧
    (processar_grade_020502 7 ["Produto", "Qtd Contagem"]
        [⟨"P1", "Coca", "un", 6, "", 50⟩] ⟨[], []⟩).1.success =
      ((processar_grade_020502 7 ["Produto", "Qtd Contagem"]
          [⟨"P1", "Coca", "un", 6, "", 50⟩] ⟨[], []⟩).1.errors.isEmpty ||
        decide (0 < (processar_grade_020502 7 ["Produto", "Qtd Contagem"]
          [⟨"P1", "Coca", "un", 6, "", 50⟩] ⟨[], []⟩).1.processed)) :=
  ⟨by decide,
    (resultado_sucesso_formula 7 ["Produto", "Qtd Contagem"] []
        [⟨"P1", "Coca", "un", 6, "", 50⟩] [] ⟨[], []⟩ ⟨[], []⟩).1
      (by decide)⟩

/-! ## Claim theorems for the importer: contagens row semantics -/

/-- C7: a contagens row whose product exists (exactly one active match) and
whose date parses computes `qtd_caixas * fator_conversao + qtd_unidades`,
derives the lot number `VAL_<YYYYMMDD>`, and upserts the lot keyed on
`(sku, data_validade)`: absent, a fresh lot is appended and the row counts
as created; present, its quantity and lot number are overwritten in place
(last write wins) and the row counts as updated. -/
theorem contagem_upsert_lote
    (u idx : Nat) (st : ImportState) (r : ContagemRow) (sku : SkuRec)
    (d : Data)
    (hcod1 : pstrip r.codigo_sku ≠ "")
    (hcod2 : pstrip r.codigo_sku ≠ "nan")
    (hsku : st.db.skus.filter
        (fun s => decide (chaveSku s = (pstrip r.codigo_sku, u)) && s.ativo) =
      [sku])
    (hdata : r.data_validade = some d) :
    (st.db.lotes.filter
        (fun l => decide (chaveLoteContagem l = (pstrip r.codigo_sku, u, some d))) =
          [] →
      aplicarLinhaContagem u st (idx, r) =
        { st with
            db := { st.db with lotes := st.db.lotes ++
              [freshLoteContagem (pstrip r.codigo_sku) u (numeroLoteVal d) d
                (r.qtd_caixas * sku.fator_conversao + r.qtd_unidades)] },
            created := st.created + 1, processed := st.processed + 1 }) ∧
    (∀ l0, st.db.lotes.filter
        (fun l => decide (chaveLoteContagem l = (pstrip r.codigo_sku, u, some d))) =
          [l0] →
      aplicarLinhaContagem u st (idx, r) =
        { st with
            db := { st.db with lotes := st.db.lotes.map (fun l =>
              if chaveLoteContagem l = (pstrip r.codigo_sku, u, some d) then
                patchLoteContagem (numeroLoteVal d)
                  (r.qtd_caixas * sku.fator_conversao + r.qtd_unidades) l
              else l) },
            updated := st.updated + 1, processed := st.processed + 1 }) := by
  have hguard : ¬(pstrip r.codigo_sku = "" ∨ pstrip r.codigo_sku = "nan") := by
    tauto
  constructor
  · intro hvazio
    simp only [aplicarLinhaContagem, if_neg hguard, hsku, hdata, getOrCreate,
      hvazio]
  · intro l0 hum
    simp only [aplicarLinhaContagem, if_neg hguard, hsku, hdata, getOrCreate,
      hum]

/-- Witness for C7: a recount of 4 boxes and 2 units of a factor-6 product
overwrites the existing lot of the same date with quantity 26 and lot
number `VAL_20250307`. -/
theorem contagem_upsert_lote_witness :
    pstrip "P1" ≠ "" ∧
    (⟨⟨[⟨"P1", 7, "Coca", "UN", 6, true⟩],
        [⟨"P1", 7, "L7", some ⟨2025, 3, 7⟩, 9, "", true⟩]⟩,
      [], [], 0, 0, 0⟩ : ImportState).db.lotes.filter
        (fun l => decide (chaveLoteContagem l = (pstrip "P1", 7, some ⟨2025, 3, 7⟩))) =
      [⟨"P1", 7, "L7", some ⟨2025, 3, 7⟩, 9, "", true⟩] ∧
    aplicarLinhaContagem 7
        ⟨⟨[⟨"P1", 7, "Coca", "UN", 6, true⟩],
          [⟨"P1", 7, "L7", some ⟨2025, 3, 7⟩, 9, "", true⟩]⟩, [], [], 0, 0, 0⟩
        (0, ⟨"P1", some ⟨2025, 3, 7⟩, 4, 2⟩) =
      ⟨⟨[⟨"P1", 7, "Coca", "UN", 6, true⟩],
        [⟨"P1", 7, "VAL_20250307", some ⟨2025, 3, 7⟩, 26, "", true⟩]⟩,
        [], [], 1, 0, 1⟩ := by
  refine ⟨by decide, by decide, ?_⟩
  have h := ((contagem_upsert_lote 7 0
      ⟨⟨[⟨"P1", 7, "Coca", "UN", 6, true⟩],
        [⟨"P1", 7, "L7", some ⟨2025, 3, 7⟩, 9, "", true⟩]⟩, [], [], 0, 0, 0⟩
      ⟨"P1", some ⟨2025, 3, 7⟩, 4, 2⟩ ⟨"P1", 7, "Coca", "UN", 6, true⟩
      ⟨2025, 3, 7⟩ (by decide) (by decide) (by decide) rfl).2
    ⟨"P1", 7, "L7", some ⟨2025, 3, 7⟩, 9, "", true⟩ (by decide))
  rw [h]
  decide

/-- C8: a contagens row whose product code matches no existing active
product in the unit appends one warning containing that code, leaves the
store and every counter unchanged, and never creates a product. -/
theorem contagem_sku_inexistente
    (u idx : Nat) (st : ImportState) (r : ContagemRow)
    (hcod1 : pstrip r.codigo_sku ≠ "")
    (hcod2 : pstrip r.codigo_sku ≠ "nan")
    (hsku : st.db.skus.filter
        (fun s => decide (chaveSku s = (pstrip r.codigo_sku, u)) && s.ativo) =
      []) :
    aplicarLinhaContagem u st (idx, r) =
      { st with warnings := st.warnings ++
          [msgLinha idx ("SKU " ++ pstrip r.codigo_sku ++ " nao encontrado")] } ∧
    ∃ a b, msgLinha idx ("SKU " ++ pstrip r.codigo_sku ++ " nao encontrado") =
      a ++ pstrip r.codigo_sku ++ b ∧
    (aplicarLinhaContagem u st (idx, r)).db = st.db ∧
    (aplicarLinhaContagem u st (idx, r)).processed = st.processed ∧
    (aplicarLinhaContagem u st (idx, r)).errors = st.errors ∧
    (aplicarLinhaContagem u st (idx, r)).created = st.created ∧
    (aplicarLinhaContagem u st (idx, r)).updated = st.updated := by
  have hguard : ¬(pstrip r.codigo_sku = "" ∨ pstrip r.codigo_sku = "nan") := by
    tauto
  have hres : aplicarLinhaContagem u st (idx, r) =
      { st with warnings := st.warnings ++
          [msgLinha idx ("SKU " ++ pstrip r.codigo_sku ++ " nao encontrado")] } := by
    simp only [aplicarLinhaContagem, if_neg hguard, hsku]
  refine ⟨hres, "Linha " ++ toString (idx + 2) ++ ": " ++ "SKU ",
    " nao encontrado", ?_, by rw [hres], by rw [hres], by rw [hres],
    by rw [hres], by rw [hres]⟩
  simp only [msgLinha, String.append_assoc]

/-- Witness for C8: importing a count for the unknown code "SKU001" leaves
the store untouched and records one warning mentioning "SKU001". -/
theorem contagem_sku_inexistente_witness :
    pstrip "SKU001" ≠ "" ∧
    aplicarLinhaContagem 7 ⟨⟨[⟨"P1", 7, "Coca", "UN", 6, true⟩], []⟩,
        [], [], 0, 0, 0⟩ (0, ⟨"SKU001", some ⟨2025, 3, 7⟩, 1, 0⟩) =
      ⟨⟨[⟨"P1", 7, "Coca", "UN", 6, true⟩], []⟩,
        [], ["Linha 2: SKU SKU001 nao encontrado"], 0, 0, 0⟩ := by
  refine ⟨by decide, ?_⟩
  have h := (contagem_sku_inexistente 7 0
      ⟨⟨[⟨"P1", 7, "Coca", "UN", 6, true⟩], []⟩, [], [], 0, 0, 0⟩
      ⟨"SKU001", some ⟨2025, 3, 7⟩, 1, 0⟩ (by decide) (by decide)
      (by decide)).1
  rw [h]
  decide

/-! ## Counter bookkeeping (C9) -/

lemma aplicarLinhaGrade_balanco (u : Nat) (st : ImportState)
    (l : Nat × GradeRow) :
    ∃ ext, (aplicarLinhaGrade u st l).errors = st.errors ++ ext ∧
      (ext = [] →
        (aplicarLinhaGrade u st l).processed + st.created + st.updated =
          st.processed + (aplicarLinhaGrade u st l).created +
            (aplicarLinhaGrade u st l).updated) := by
  simp only [aplicarLinhaGrade, upsertLoteBase]
  split
  · exact ⟨[], by simp, fun _ => by omega⟩
  · split
    · exact ⟨[msgMultiplo l.1], by simp, fun h => by simp at h⟩
    · split
      · exact ⟨[msgMultiplo l.1], by simp, fun h => by simp at h⟩
      · exact ⟨[], by simp, fun _ => by simp; omega⟩
    · split
      · exact ⟨[msgMultiplo l.1], by simp, fun h => by simp at h⟩
      · exact ⟨[], by simp, fun _ => by simp; omega⟩

lemma aplicarLinhaContagem_balanco (u : Nat) (st : ImportState)
    (l : Nat × ContagemRow) :
    ∃ ext, (aplicarLinhaContagem u st l).errors = st.errors ++ ext ∧
      (ext = [] →
        (aplicarLinhaContagem u st l).processed + st.created + st.updated =
          st.processed + (aplicarLinhaContagem u st l).created +
            (aplicarLinhaContagem u st l).updated) := by
  simp only [aplicarLinhaContagem]
  split
  · exact ⟨[], by simp, fun _ => by omega⟩
  · split
    · exact ⟨[], by simp, fun _ => by simp⟩
    · split
      · exact ⟨[], by simp, fun _ => by simp⟩
      · split
        · exact ⟨[msgMultiplo l.1], by simp, fun h => by simp at h⟩
        · exact ⟨[], by simp, fun _ => by simp; omega⟩
        · exact ⟨[], by simp, fun _ => by simp; omega⟩
    · exact ⟨[msgMultiplo l.1], by simp, fun h => by simp at h⟩

lemma processarLinhasGrade_errors_mono (u : Nat) :
    ∀ (linhas : List (Nat × GradeRow)) (st : ImportState),
      ∃ ext, (processarLinhasGrade u st linhas).errors = st.errors ++ ext := by
  intro linhas
  induction linhas with
  | nil => exact fun st => ⟨[], by simp [processarLinhasGrade]⟩
  | cons l rest ih =>
    intro st
    obtain ⟨e1, he1, _⟩ := aplicarLinhaGrade_balanco u st l
    obtain ⟨e2, he2⟩ := ih (aplicarLinhaGrade u st l)
    refine ⟨e1 ++ e2, ?_⟩
    have : processarLinhasGrade u st (l :: rest) =
        processarLinhasGrade u (aplicarLinhaGrade u st l) rest := rfl
    rw [this, he2, he1, List.append_assoc]

lemma processarLinhasContagem_errors_mono (u : Nat) :
    ∀ (linhas : List (Nat × ContagemRow)) (st : ImportState),
      ∃ ext, (processarLinhasContagem u st linhas).errors = st.errors ++ ext := by
  intro linhas
  induction linhas with
  | nil => exact fun st => ⟨[], by simp [processarLinhasContagem]⟩
  | cons l rest ih =>
    intro st
    obtain ⟨e1, he1, _⟩ := aplicarLinhaContagem_balanco u st l
    obtain ⟨e2, he2⟩ := ih (aplicarLinhaContagem u st l)
    refine ⟨e1 ++ e2, ?_⟩
    have : processarLinhasContagem u st (l :: rest) =
        processarLinhasContagem u (aplicarLinhaContagem u st l) rest := rfl
    rw [this, he2, he1, List.append_assoc]

lemma processarLinhasGrade_balanco (u : Nat) :
    ∀ (linhas : List (Nat × GradeRow)) (st : ImportState),
      (processarLinhasGrade u st linhas).errors = st.errors →
      (processarLinhasGrade u st linhas).processed + st.created + st.updated =
        st.processed + (processarLinhasGrade u st linhas).created +
          (processarLinhasGrade u st linhas).updated := by
  intro linhas
  induction linhas with
  | nil => intro st _; rfl
  | cons l rest ih =>
    intro st h
    have hfold : processarLinhasGrade u st (l :: rest) =
        processarLinhasGrade u (aplicarLinhaGrade u st l) rest := rfl
    obtain ⟨e1, he1, hbal⟩ := aplicarLinhaGrade_balanco u st l
    obtain ⟨e2, he2⟩ := processarLinhasGrade_errors_mono u rest
      (aplicarLinhaGrade u st l)
    rw [hfold] at h
    rw [he2, he1, List.append_assoc] at h
    have hnil : e1 ++ e2 = [] := by
      have := List.append_cancel_left
        (h.trans (List.append_nil st.errors).symm)
      exact this
    obtain ⟨h1, h2⟩ := List.append_eq_nil.mp hnil
    have hrow := hbal h1
    have hrest := ih (aplicarLinhaGrade u st l) (by rw [he2, h2]; simp)
    rw [hfold]
    omega

lemma processarLinhasContagem_balanco (u : Nat) :
    ∀ (linhas : List (Nat × ContagemRow)) (st : ImportState),
      (processarLinhasContagem u st linhas).errors = st.errors →
      (processarLinhasContagem u st linhas).processed + st.created +
          st.updated =
        st.processed + (processarLinhasContagem u st linhas).created +
          (processarLinhasContagem u st linhas).updated := by
  intro linhas
  induction linhas with
  | nil => intro st _; rfl
  | cons l rest ih =>
    intro st h
    have hfold : processarLinhasContagem u st (l :: rest) =
        processarLinhasContagem u (aplicarLinhaContagem u st l) rest := rfl
    obtain ⟨e1, he1, hbal⟩ := aplicarLinhaContagem_balanco u st l
    obtain ⟨e2, he2⟩ := processarLinhasContagem_errors_mono u rest
      (aplicarLinhaContagem u st l)
    rw [hfold] at h
    rw [he2, he1, List.append_assoc] at h
    have hnil : e1 ++ e2 = [] := by
      have := List.append_cancel_left
        (h.trans (List.append_nil st.errors).symm)
      exact this
    obtain ⟨h1, h2⟩ := List.append_eq_nil.mp hnil
    have hrow := hbal h1
    have hrest := ih (aplicarLinhaContagem u st l) (by rw [he2, h2]; simp)
    rw [hfold]
    omega

/-- C9: for both import calls, when the returned errors list is empty the
counters satisfy `processed = created + updated` (every processed row
increments exactly one of created/updated, and skipped rows increment
neither). -/
theorem contadores_consistentes
    (u : Nat) (cols colsC : List String) (linhasG : List GradeRow)
    (linhasC : List ContagemRow) (db dbC : DB) :
    ((processar_grade_020502 u cols linhasG db).1.errors = [] →
      (processar_grade_020502 u cols linhasG db).1.processed =
        (processar_grade_020502 u cols linhasG db).1.created +
          (processar_grade_020502 u cols linhasG db).1.updated) ∧
    ((processar_contagens u colsC linhasC dbC).1.errors = [] →
      (processar_contagens u colsC linhasC dbC).1.processed =
        (processar_contagens u colsC linhasC dbC).1.created +
          (processar_contagens u colsC linhasC dbC).1.updated) := by
  constructor
  · intro h
    revert h
    simp only [processar_grade_020502]
    split
    · intro h
      have := processarLinhasGrade_balanco u linhasG.enum (estadoInicial db)
        (by exact h)
      simpa [estadoInicial] using this
    · intro _; rfl
  · intro h
    revert h
    simp only [processar_contagens]
    split
    · intro h
      have := processarLinhasContagem_balanco u linhasC.enum
        (estadoInicial dbC) (by exact h)
      simpa [estadoInicial] using this
    · intro _; rfl

/-- Witness for C9: a two-row grade import (one create, then one update of
the same code) has no errors and `processed = 2 = created + updated`. -/
theorem contadores_consistentes_witness :
    (processar_grade_020502 7 ["Produto", "Qtd Contagem"]
        [⟨"P1", "Coca", "un", 6, "", 50⟩, ⟨"P1", "Coca", "un", 6, "", 60⟩]
        ⟨[], []⟩).1.errors = [] ∧
    (processar_grade_020502 7 ["Produto", "Qtd Contagem"]
        [⟨"P1", "Coca", "un", 6, "", 50⟩, ⟨"P1", "Coca", "un", 6, "", 60⟩]
        ⟨[], []⟩).1.processed =
      (processar_grade_020502 7 ["Produto", "Qtd Contagem"]
        [⟨"P1", "Coca", "un", 6, "", 50⟩, ⟨"P1", "Coca", "un", 6, "", 60⟩]
        ⟨[], []⟩).1.created +
      (processar_grade_020502 7 ["Produto", "Qtd Contagem"]
        [⟨"P1", "Coca", "un", 6, "", 50⟩, ⟨"P1", "Coca", "un", 6, "", 60⟩]
        ⟨[], []⟩).1.updated :=
  ⟨by decide,
    (contadores_consistentes 7 ["Produto", "Qtd Contagem"] []
        [⟨"P1", "Coca", "un", 6, "", 50⟩, ⟨"P1", "Coca", "un", 6, "", 60⟩]
        [] ⟨[], []⟩ ⟨[], []⟩).1 (by decide)⟩

/-! ## Generic facts about keyed upserts (towards C3) -/

section Upserts

variable {α K : Type} [DecidableEq K]

lemma conta_cons (keyOf : α → K) (a : α) (t : List α) (k : K) :
    conta keyOf (a :: t) k =
      (if keyOf a = k then 1 else 0) + conta keyOf t k := by
  simp only [conta, List.filter_cons]
  by_cases hka : keyOf a = k
  · simp [hka, Nat.add_comm]
  · simp [hka]

lemma conta_append (keyOf : α → K) (l : List α) (x : α) (k : K) :
    conta keyOf (l ++ [x]) k =
      conta keyOf l k + (if keyOf x = k then 1 else 0) := by
  simp only [conta, List.filter_append, List.length_append]
  congr 1
  by_cases hke : keyOf x = k
  · simp [List.filter_cons, hke]
  · simp [List.filter_cons, hke]

lemma conta_map_patchIf (keyOf : α → K) (l : List α) (kk : K)
    (patch : α → α) (hp : ∀ x, keyOf (patch x) = keyOf x) (k : K) :
    conta keyOf (l.map (fun x => if keyOf x = kk then patch x else x)) k =
      conta keyOf l k := by
  induction l with
  | nil => rfl
  | cons a t ih =>
    simp only [List.map_cons, conta_cons]
    rw [ih]
    congr 1
    by_cases hka : keyOf a = kk
    · rw [if_pos hka, hp a]
    · rw [if_neg hka]

lemma mem_conta_pos (keyOf : α → K) {l : List α} {x : α} (hx : x ∈ l)
    (k : K) (hk : keyOf x = k) : 0 < conta keyOf l k := by
  have : x ∈ l.filter (fun y => decide (keyOf y = k)) :=
    List.mem_filter.mpr ⟨hx, by simpa using hk⟩
  have := List.length_pos.mpr (List.ne_nil_of_mem this)
  simpa [conta] using this

lemma getOrCreate_criado (keyOf : α → K) (k : K) (patch : α → α) (fresh : α)
    (l : List α) (h : conta keyOf l k = 0) :
    getOrCreate keyOf k patch fresh l = (l ++ [fresh], UpTag.criado) := by
  have hf : l.filter (fun x => decide (keyOf x = k)) = [] :=
    List.length_eq_zero.mp h
  simp [getOrCreate, hf]

lemma getOrCreate_atualizado (keyOf : α → K) (k : K) (patch : α → α)
    (fresh : α) (l : List α) (h : conta keyOf l k = 1) :
    getOrCreate keyOf k patch fresh l =
      (l.map (fun x => if keyOf x = k then patch x else x),
        UpTag.atualizado) := by
  obtain ⟨a, ha⟩ := List.length_eq_one.mp h
  simp [getOrCreate, ha]

lemma getOrCreate_multiplo (keyOf : α → K) (k : K) (patch : α → α)
    (fresh : α) (l : List α) (h : 2 ≤ conta keyOf l k) :
    getOrCreate keyOf k patch fresh l = (l, UpTag.multiplo) := by
  rcases hf : l.filter (fun x => decide (keyOf x = k)) with _ | ⟨a, _ | ⟨b, t⟩⟩
  · rw [conta, hf] at h
    simp at h
  · rw [conta, hf] at h
    simp at h
  · simp [getOrCreate, hf]

lemma aplicaOp_criado (keyOf : α → K) (l : List α) (o : StoreOp α K)
    (h : conta keyOf l o.key = 0) :
    aplicaOp keyOf l o = l ++ [o.fresh] := by
  simp [aplicaOp, getOrCreate_criado keyOf o.key o.patch o.fresh l h]

lemma aplicaOp_atualizado (keyOf : α → K) (l : List α) (o : StoreOp α K)
    (h : conta keyOf l o.key = 1) :
    aplicaOp keyOf l o =
      l.map (fun x => if keyOf x = o.key then o.patch x else x) := by
  simp [aplicaOp, getOrCreate_atualizado keyOf o.key o.patch o.fresh l h]

lemma aplicaOp_multiplo (keyOf : α → K) (l : List α) (o : StoreOp α K)
    (h : 2 ≤ conta keyOf l o.key) :
    aplicaOp keyOf l o = l := by
  simp [aplicaOp, getOrCreate_multiplo keyOf o.key o.patch o.fresh l h]

lemma conta_aplicaOp_le (keyOf : α → K) (l : List α) (o : StoreOp α K)
    (hk : keyOf o.fresh = o.key) (hp : ∀ x, keyOf (o.patch x) = keyOf x)
    (hu : ∀ k, conta keyOf l k ≤ 1) :
    ∀ k, conta keyOf (aplicaOp keyOf l o) k ≤ 1 := by
  intro k
  rcases Nat.le_one_iff_eq_zero_or_eq_one.mp (hu o.key) with h0 | h1
  · rw [aplicaOp_criado keyOf l o h0, conta_append]
    by_cases hke : k = o.key
    · subst hke
      rw [if_pos hk, h0]
    · have hne : keyOf o.fresh ≠ k := by
        rw [hk]
        exact fun he => hke he.symm
      rw [if_neg hne]
      have := hu k
      omega
  · rw [aplicaOp_atualizado keyOf l o h1, conta_map_patchIf keyOf l o.key
      o.patch hp]
    exact hu k

lemma conta_aplicaOp_outra (keyOf : α → K) (l : List α) (o : StoreOp α K)
    (hk : keyOf o.fresh = o.key) (hp : ∀ x, keyOf (o.patch x) = keyOf x)
    (k : K) (hne : k ≠ o.key) :
    conta keyOf (aplicaOp keyOf l o) k = conta keyOf l k := by
  rcases h1 : conta keyOf l o.key with _ | n
  · have hfk : keyOf o.fresh ≠ k := by
      rw [hk]
      exact fun he => hne he.symm
    rw [aplicaOp_criado keyOf l o h1, conta_append, if_neg hfk]
    omega
  · rcases n with _ | m
    · rw [aplicaOp_atualizado keyOf l o h1,
        conta_map_patchIf keyOf l o.key o.patch hp]
    · rw [aplicaOp_multiplo keyOf l o (by omega)]

lemma conta_aplicaOp_propria (keyOf : α → K) (l : List α) (o : StoreOp α K)
    (hk : keyOf o.fresh = o.key) (hp : ∀ x, keyOf (o.patch x) = keyOf x)
    (hu0 : conta keyOf l o.key ≤ 1) :
    conta keyOf (aplicaOp keyOf l o) o.key = 1 := by
  rcases Nat.le_one_iff_eq_zero_or_eq_one.mp hu0 with h0 | h1
  · rw [aplicaOp_criado keyOf l o h0, conta_append, if_pos hk, h0]
  · rw [aplicaOp_atualizado keyOf l o h1,
      conta_map_patchIf keyOf l o.key o.patch hp, h1]

lemma opsPara_cons_eq (o : StoreOp α K) (ops : List (StoreOp α K)) (k : K)
    (h : o.key = k) : opsPara (o :: ops) k = o :: opsPara ops k := by
  simp [opsPara, List.filter_cons, h]

lemma opsPara_cons_ne (o : StoreOp α K) (ops : List (StoreOp α K)) (k : K)
    (h : o.key ≠ k) : opsPara (o :: ops) k = opsPara ops k := by
  simp only [opsPara, List.filter_cons]
  rw [if_neg (by simpa using h)]

lemma corre_cons (keyOf : α → K) (l : List α) (o : StoreOp α K)
    (ops : List (StoreOp α K)) :
    corre keyOf l (o :: ops) = corre keyOf (aplicaOp keyOf l o) ops := rfl

lemma opsBoas_head {keyOf : α → K} {o : StoreOp α K}
    {ops : List (StoreOp α K)} (h : OpsBoas keyOf (o :: ops)) :
    (∀ x, keyOf (o.patch x) = keyOf x) ∧ keyOf o.fresh = o.key :=
  ⟨h.1 o (List.mem_cons_self o ops), h.2.1 o (List.mem_cons_self o ops)⟩

lemma opsBoas_tail {keyOf : α → K} {o : StoreOp α K}
    {ops : List (StoreOp α K)} (h : OpsBoas keyOf (o :: ops)) :
    OpsBoas keyOf ops := by
  obtain ⟨h1, h2, h3, h4⟩ := h
  exact ⟨fun o2 ho2 => h1 o2 (List.mem_cons_of_mem _ ho2),
    fun o2 ho2 => h2 o2 (List.mem_cons_of_mem _ ho2),
    fun o2 ho2 o3 ho3 => h3 o2 (List.mem_cons_of_mem _ ho2) o3
      (List.mem_cons_of_mem _ ho3),
    fun o2 ho2 o3 ho3 => h4 o2 (List.mem_cons_of_mem _ ho2) o3
      (List.mem_cons_of_mem _ ho3)⟩

lemma corre_unique (keyOf : α → K) :
    ∀ (ops : List (StoreOp α K)) (l : List α), OpsBoas keyOf ops →
      (∀ k, conta keyOf l k ≤ 1) →
      ∀ k, conta keyOf (corre keyOf l ops) k ≤ 1 := by
  intro ops
  induction ops with
  | nil => exact fun l _ hu => hu
  | cons o ops ih =>
    intro l hops hu
    exact ih (aplicaOp keyOf l o) (opsBoas_tail hops)
      (conta_aplicaOp_le keyOf l o (opsBoas_head hops).2
        (opsBoas_head hops).1 hu)

lemma conta_corre_untouched (keyOf : α → K) :
    ∀ (ops : List (StoreOp α K)) (l : List α) (k : K), OpsBoas keyOf ops →
      (∀ o ∈ ops, o.key ≠ k) →
      conta keyOf (corre keyOf l ops) k = conta keyOf l k := by
  intro ops
  induction ops with
  | nil => exact fun l k _ _ => rfl
  | cons o ops ih =>
    intro l k hops hne
    rw [corre_cons, ih (aplicaOp keyOf l o) k (opsBoas_tail hops)
      (fun o2 ho2 => hne o2 (List.mem_cons_of_mem _ ho2)),
      conta_aplicaOp_outra keyOf l o (opsBoas_head hops).2
        (opsBoas_head hops).1 k
        (fun he => hne o (List.mem_cons_self o ops) he.symm)]

lemma conta_corre_touched (keyOf : α → K) :
    ∀ (ops : List (StoreOp α K)) (l : List α), OpsBoas keyOf ops →
      (∀ k, conta keyOf l k ≤ 1) →
      ∀ o ∈ ops, conta keyOf (corre keyOf l ops) o.key = 1 := by
  intro ops
  induction ops with
  | nil => exact fun l _ _ o ho => absurd ho (List.not_mem_nil o)
  | cons o0 ops ih =>
    intro l hops hu o ho
    have hhead := opsBoas_head hops
    have hu2 := conta_aplicaOp_le keyOf l o0 hhead.2 hhead.1 hu
    rcases List.mem_cons.mp ho with rfl | hmem
    · by_cases htocado : ∃ o1 ∈ ops, o1.key = o.key
      · obtain ⟨o1, ho1, hk1⟩ := htocado
        rw [← hk1, corre_cons]
        exact ih (aplicaOp keyOf l o) (opsBoas_tail hops) hu2 o1 ho1
      · push_neg at htocado
        rw [corre_cons, conta_corre_untouched keyOf ops (aplicaOp keyOf l o)
          o.key (opsBoas_tail hops) htocado]
        exact conta_aplicaOp_propria keyOf l o hhead.2 hhead.1 (hu o.key)
    · rw [corre_cons]
      exact ih (aplicaOp keyOf l o0) (opsBoas_tail hops) hu2 o hmem

lemma corre_eq_map (keyOf : α → K) :
    ∀ (ops : List (StoreOp α K)) (l : List α), OpsBoas keyOf ops →
      (∀ o ∈ ops, conta keyOf l o.key = 1) →
      corre keyOf l ops = l.map (aplicaElem keyOf ops) := by
  intro ops
  induction ops with
  | nil =>
    intro l _ _
    have h : l.map (aplicaElem keyOf []) = l.map (fun x => x) :=
      List.map_congr_left (fun x _ => rfl)
    simp only [corre, List.foldl_nil]
    rw [h, List.map_id']
  | cons o ops ih =>
    intro l hops h1
    have hhead := opsBoas_head hops
    rw [corre_cons, aplicaOp_atualizado keyOf l o
      (h1 o (List.mem_cons_self o ops))]
    have hcount : ∀ o2 ∈ ops,
        conta keyOf (l.map (fun x => if keyOf x = o.key then o.patch x else x))
          o2.key = 1 := by
      intro o2 ho2
      rw [conta_map_patchIf keyOf l o.key o.patch hhead.1]
      exact h1 o2 (List.mem_cons_of_mem o ho2)
    rw [ih _ (opsBoas_tail hops) hcount, List.map_map]
    rfl

lemma aplicaElem_ultima (keyOf : α → K) :
    ∀ (ops : List (StoreOp α K)) (x : α), OpsBoas keyOf ops →
      aplicaElem keyOf ops x =
        (match (opsPara ops (keyOf x)).getLast? with
         | none => x
         | some o => o.patch x) := by
  intro ops
  induction ops with
  | nil => exact fun x _ => rfl
  | cons o ops ih =>
    intro x hops
    have hhead := opsBoas_head hops
    by_cases hx : keyOf x = o.key
    · have hstep : aplicaElem keyOf (o :: ops) x =
          aplicaElem keyOf ops (o.patch x) := by
        simp [aplicaElem, List.foldl_cons, if_pos hx]
      rw [hstep, ih (o.patch x) (opsBoas_tail hops), hhead.1 x]
      have hpara : opsPara (o :: ops) (keyOf x) =
          o :: opsPara ops (keyOf x) := by
        simp [opsPara, List.filter_cons, hx.symm]
      rw [hpara]
      rcases hrest : opsPara ops (keyOf x) with _ | ⟨y, t⟩
      · simp
      · rw [List.getLast?_cons_cons]
        have hne : (y :: t : List (StoreOp α K)) ≠ [] := List.cons_ne_nil y t
        obtain ⟨o2, ho2⟩ : ∃ o2, (y :: t).getLast? = some o2 :=
          ⟨(y :: t).getLast hne, List.getLast?_eq_getLast_of_ne_nil hne⟩
        rw [ho2]
        have ho2mem : o2 ∈ opsPara ops (keyOf x) := by
          rw [hrest]
          have := List.getLast?_eq_getLast_of_ne_nil hne
          rw [this] at ho2
          exact (Option.some_inj.mp ho2) ▸ List.getLast_mem hne
        have ho2ops : o2 ∈ ops := (List.mem_filter.mp ho2mem).1
        exact hops.2.2.1 o2 (List.mem_cons_of_mem o ho2ops) o
          (List.mem_cons_self o ops) x
    · have hstep : aplicaElem keyOf (o :: ops) x = aplicaElem keyOf ops x := by
        simp [aplicaElem, List.foldl_cons, if_neg hx]
      have hpara : opsPara (o :: ops) (keyOf x) = opsPara ops (keyOf x) := by
        simp only [opsPara, List.filter_cons]
        rw [if_neg (by simp; exact fun he => hx he.symm)]
      rw [hstep, ih x (opsBoas_tail hops), hpara]

lemma corre_filter_untouched (keyOf : α → K) :
    ∀ (ops : List (StoreOp α K)) (l : List α) (k : K), OpsBoas keyOf ops →
      (∀ o ∈ ops, o.key ≠ k) →
      (corre keyOf l ops).filter (fun y => decide (keyOf y = k)) =
        l.filter (fun y => decide (keyOf y = k)) := by
  intro ops
  induction ops with
  | nil => exact fun l k _ _ => rfl
  | cons o ops ih =>
    intro l k hops hne
    have hhead := opsBoas_head hops
    rw [corre_cons, ih (aplicaOp keyOf l o) k (opsBoas_tail hops)
      (fun o2 ho2 => hne o2 (List.mem_cons_of_mem _ ho2))]
    have hok : o.key ≠ k := hne o (List.mem_cons_self o ops)
    rcases h1 : conta keyOf l o.key with _ | n
    · rw [aplicaOp_criado keyOf l o h1, List.filter_append]
      have : ([o.fresh].filter (fun y => decide (keyOf y = k))) = [] := by
        simp [List.filter_cons, hhead.2, hok]
      rw [this, List.append_nil]
    · rcases n with _ | m
      · rw [aplicaOp_atualizado keyOf l o h1, List.filter_map]
        have hpred : ∀ y : α,
            (fun y => decide (keyOf y = k))
                ((fun x => if keyOf x = o.key then o.patch x else x) y) =
              decide (keyOf y = k) := by
          intro y
          by_cases hy : keyOf y = o.key
          · simp only [if_pos hy, hhead.1 y]
          · simp only [if_neg hy]
        have hcomp : ((fun y => decide (keyOf y = k)) ∘
            fun x => if keyOf x = o.key then o.patch x else x) =
            (fun y => decide (keyOf y = k)) := funext hpred
        rw [hcomp]
        have : ∀ y ∈ l.filter (fun y => decide (keyOf y = k)),
            (fun x => if keyOf x = o.key then o.patch x else x) y = y := by
          intro y hy
          have hyk : keyOf y = k := by
            have := (List.mem_filter.mp hy).2
            simpa using this
          have hynk : keyOf y ≠ o.key := by
            rw [hyk]
            exact fun he => hok he.symm
          simp only [if_neg hynk]
        rw [List.map_congr_left this, List.map_id']
      · rw [aplicaOp_multiplo keyOf l o (by omega)]

lemma corre_settled (keyOf : α → K) :
    ∀ (ops : List (StoreOp α K)) (l : List α), OpsBoas keyOf ops →
      (∀ k, conta keyOf l k ≤ 1) →
      ∀ x ∈ corre keyOf l ops, ∀ o,
        (opsPara ops (keyOf x)).getLast? = some o → o.patch x = x := by
  intro ops
  induction ops with
  | nil =>
    intro l _ _ x _ o ho
    simp [opsPara] at ho
  | cons o0 ops ih =>
    intro l hops hu x hx o ho
    have hhead := opsBoas_head hops
    have hu2 := conta_aplicaOp_le keyOf l o0 hhead.2 hhead.1 hu
    rw [corre_cons] at hx
    rcases hrest : opsPara ops (keyOf x) with _ | ⟨y, t⟩
    · -- the tail does not touch the key of x: o must be o0
      have huntouched : ∀ o1 ∈ ops, o1.key ≠ keyOf x := by
        intro o1 ho1 he
        have : o1 ∈ opsPara ops (keyOf x) :=
          List.mem_filter.mpr ⟨ho1, by simpa using he⟩
        rw [hrest] at this
        exact absurd this (List.not_mem_nil o1)
      have hx0 : keyOf x = o0.key ∧ o = o0 := by
        by_cases hk0 : o0.key = keyOf x
        · have hpara : opsPara (o0 :: ops) (keyOf x) = [o0] := by
            rw [opsPara_cons_eq o0 ops _ hk0, hrest]
          rw [hpara] at ho
          simp at ho
          exact ⟨hk0.symm, ho.symm⟩
        · have hpara : opsPara (o0 :: ops) (keyOf x) = [] := by
            rw [opsPara_cons_ne o0 ops _ hk0, hrest]
          rw [hpara] at ho
          simp at ho
      obtain ⟨hkx, rfl⟩ := hx0
      -- x survives the tail untouched, so it is in the store after o0
      have hxin : x ∈ aplicaOp keyOf l o ∧ keyOf x = o.key := by
        have hfx : x ∈ (corre keyOf (aplicaOp keyOf l o) ops).filter
            (fun y => decide (keyOf y = o.key)) := by
          refine List.mem_filter.mpr ⟨hx, by simpa using hkx⟩
        rw [corre_filter_untouched keyOf ops (aplicaOp keyOf l o) o.key
          (opsBoas_tail hops) (fun o1 ho1 => hkx ▸ huntouched o1 ho1)] at hfx
        have := List.mem_filter.mp hfx
        exact ⟨this.1, by simpa using this.2⟩
      rcases Nat.le_one_iff_eq_zero_or_eq_one.mp (hu o.key) with h0 | h1
      · rw [aplicaOp_criado keyOf l o h0] at hxin
        rcases List.mem_append.mp hxin.1 with hmem | hmem
        · exact absurd (mem_conta_pos keyOf hmem o.key hxin.2) (by omega)
        · have : x = o.fresh := by simpa using hmem
          rw [this]
          exact hops.2.2.2 o (List.mem_cons_self o ops) o
            (List.mem_cons_self o ops) rfl
      · rw [aplicaOp_atualizado keyOf l o h1] at hxin
        obtain ⟨z, _, hz⟩ := List.mem_map.mp hxin.1
        by_cases hzk : keyOf z = o.key
        · rw [if_pos hzk] at hz
          rw [← hz]
          exact hops.2.2.1 o (List.mem_cons_self o ops) o
            (List.mem_cons_self o ops) z
        · rw [if_neg hzk] at hz
          rw [← hz] at hxin
          exact absurd hxin.2 hzk
    · -- the tail touches the key of x: recurse
      have hlast : (opsPara ops (keyOf x)).getLast? = some o := by
        by_cases hk0 : o0.key = keyOf x
        · rw [opsPara_cons_eq o0 ops _ hk0, hrest,
            List.getLast?_cons_cons] at ho
          rw [hrest]
          exact ho
        · rw [opsPara_cons_ne o0 ops _ hk0] at ho
          exact ho
      exact ih (aplicaOp keyOf l o0) (opsBoas_tail hops) hu2 x hx o hlast

/-- Running the same sequence of well-behaved keyed upserts twice from a
store with at most one row per key leaves the store of the first run
unchanged. -/
lemma corre_idempotente (keyOf : α → K) (ops : List (StoreOp α K))
    (l : List α) (hops : OpsBoas keyOf ops)
    (hu : ∀ k, conta keyOf l k ≤ 1) :
    corre keyOf (corre keyOf l ops) ops = corre keyOf l ops := by
  have h1 : ∀ o ∈ ops, conta keyOf (corre keyOf l ops) o.key = 1 :=
    conta_corre_touched keyOf ops l hops hu
  rw [corre_eq_map keyOf ops (corre keyOf l ops) hops h1]
  have hid : ∀ x ∈ corre keyOf l ops, aplicaElem keyOf ops x = x := by
    intro x hx
    rw [aplicaElem_ultima keyOf ops x hops]
    rcases hlast : (opsPara ops (keyOf x)).getLast? with _ | o
    · rfl
    · exact corre_settled keyOf ops l hops hu x hx o hlast
  rw [List.map_congr_left hid, List.map_id']

end Upserts

/-! ## The grade importer as a pair of upsert sequences (towards C3) -/

lemma opsBoas_opsSkuGrade (u : Nat) (linhas : List GradeRow) :
    OpsBoas chaveSku (opsSkuGrade u linhas) := by
  refine ⟨?_, ?_, ?_, ?_⟩
  · intro o ho x
    obtain ⟨r, _, rfl⟩ := List.mem_map.mp ho
    rfl
  · intro o ho
    obtain ⟨r, _, rfl⟩ := List.mem_map.mp ho
    rfl
  · intro o ho o2 ho2 x
    obtain ⟨r, _, rfl⟩ := List.mem_map.mp ho
    obtain ⟨r2, _, rfl⟩ := List.mem_map.mp ho2
    rfl
  · intro o ho o2 ho2 hk
    obtain ⟨r, _, rfl⟩ := List.mem_map.mp ho
    obtain ⟨r2, _, rfl⟩ := List.mem_map.mp ho2
    have hc : pstrip r2.codigo_sku = pstrip r.codigo_sku := by
      have := congrArg Prod.fst hk
      simpa [opSkuGrade] using this.symm
    simp [opSkuGrade, patchSkuGrade, freshSkuGrade, hc]

lemma opsBoas_opsLoteGrade (u : Nat) (linhas : List GradeRow) :
    OpsBoas chaveLoteGrade (opsLoteGrade u linhas) := by
  refine ⟨?_, ?_, ?_, ?_⟩
  · intro o ho x
    obtain ⟨r, _, rfl⟩ := List.mem_map.mp ho
    rfl
  · intro o ho
    obtain ⟨r, _, rfl⟩ := List.mem_map.mp ho
    rfl
  · intro o ho o2 ho2 x
    obtain ⟨r, _, rfl⟩ := List.mem_map.mp ho
    obtain ⟨r2, _, rfl⟩ := List.mem_map.mp ho2
    rfl
  · intro o ho o2 ho2 hk
    obtain ⟨r, _, rfl⟩ := List.mem_map.mp ho
    obtain ⟨r2, _, rfl⟩ := List.mem_map.mp ho2
    have hc : pstrip r2.codigo_sku = pstrip r.codigo_sku := by
      have := congrArg Prod.fst hk
      simpa [opLoteGrade] using this.symm
    simp [opLoteGrade, patchLoteGrade, freshLoteGrade, hc]

lemma aplicarLinhaGrade_valida (u idx : Nat) (r : GradeRow)
    (st : ImportState)
    (hval : ¬(pstrip r.codigo_sku = "" ∨ pstrip r.codigo_sku = "nan"))
    (hsku1 : conta chaveSku st.db.skus (pstrip r.codigo_sku, u) ≤ 1)
    (hlote1 : conta chaveLoteGrade st.db.lotes
      (pstrip r.codigo_sku, u, "BASE", none) ≤ 1) :
    (aplicarLinhaGrade u st (idx, r)).db.skus =
      aplicaOp chaveSku st.db.skus (opSkuGrade u r) ∧
    (aplicarLinhaGrade u st (idx, r)).db.lotes =
      aplicaOp chaveLoteGrade st.db.lotes (opLoteGrade u r) ∧
    (aplicarLinhaGrade u st (idx, r)).errors = st.errors ∧
    (aplicarLinhaGrade u st (idx, r)).warnings = st.warnings ∧
    (aplicarLinhaGrade u st (idx, r)).processed = st.processed + 1 ∧
    (aplicarLinhaGrade u st (idx, r)).created +
        (aplicarLinhaGrade u st (idx, r)).updated =
      st.created + st.updated + 1 ∧
    (conta chaveSku st.db.skus (pstrip r.codigo_sku, u) = 1 →
      (aplicarLinhaGrade u st (idx, r)).created = st.created) := by
  rcases Nat.le_one_iff_eq_zero_or_eq_one.mp hsku1 with hs | hs <;>
    rcases Nat.le_one_iff_eq_zero_or_eq_one.mp hlote1 with hl | hl
  · have hgs := getOrCreate_criado chaveSku (pstrip r.codigo_sku, u)
      (patchSkuGrade r) (freshSkuGrade (pstrip r.codigo_sku) u r)
      st.db.skus hs
    have hgl := getOrCreate_criado chaveLoteGrade
      (pstrip r.codigo_sku, u, "BASE", none) (patchLoteGrade r)
      (freshLoteGrade (pstrip r.codigo_sku) u r) st.db.lotes hl
    have hres : aplicarLinhaGrade u st (idx, r) =
        { st with
            db := { skus := st.db.skus ++ [freshSkuGrade (pstrip r.codigo_sku) u r],
                    lotes := st.db.lotes ++ [freshLoteGrade (pstrip r.codigo_sku) u r] },
            created := st.created + 1,
            processed := st.processed + 1 } := by
      simp [aplicarLinhaGrade, if_neg hval, hgs, upsertLoteBase, hgl]
    rw [hres, aplicaOp, opSkuGrade, hgs, aplicaOp, opLoteGrade, hgl]
    refine ⟨rfl, rfl, rfl, rfl, rfl, ?_,
      fun h => absurd (hs.symm.trans h) (by decide)⟩
    show st.created + 1 + st.updated = st.created + st.updated + 1
    omega
  · have hgs := getOrCreate_criado chaveSku (pstrip r.codigo_sku, u)
      (patchSkuGrade r) (freshSkuGrade (pstrip r.codigo_sku) u r)
      st.db.skus hs
    have hgl := getOrCreate_atualizado chaveLoteGrade
      (pstrip r.codigo_sku, u, "BASE", none) (patchLoteGrade r)
      (freshLoteGrade (pstrip r.codigo_sku) u r) st.db.lotes hl
    have hres : aplicarLinhaGrade u st (idx, r) =
        { st with
            db := { skus := st.db.skus ++ [freshSkuGrade (pstrip r.codigo_sku) u r],
                    lotes := st.db.lotes.map (fun x =>
                      if chaveLoteGrade x = (pstrip r.codigo_sku, u, "BASE", none)
                      then patchLoteGrade r x else x) },
            created := st.created + 1,
            processed := st.processed + 1 } := by
      simp [aplicarLinhaGrade, if_neg hval, hgs, upsertLoteBase, hgl]
    rw [hres, aplicaOp, opSkuGrade, hgs, aplicaOp, opLoteGrade, hgl]
    refine ⟨rfl, rfl, rfl, rfl, rfl, ?_,
      fun h => absurd (hs.symm.trans h) (by decide)⟩
    show st.created + 1 + st.updated = st.created + st.updated + 1
    omega
  · have hgs := getOrCreate_atualizado chaveSku (pstrip r.codigo_sku, u)
      (patchSkuGrade r) (freshSkuGrade (pstrip r.codigo_sku) u r)
      st.db.skus hs
    have hgl := getOrCreate_criado chaveLoteGrade
      (pstrip r.codigo_sku, u, "BASE", none) (patchLoteGrade r)
      (freshLoteGrade (pstrip r.codigo_sku) u r) st.db.lotes hl
    have hres : aplicarLinhaGrade u st (idx, r) =
        { st with
            db := { skus := st.db.skus.map (fun x =>
                      if chaveSku x = (pstrip r.codigo_sku, u)
                      then patchSkuGrade r x else x),
                    lotes := st.db.lotes ++ [freshLoteGrade (pstrip r.codigo_sku) u r] },
            updated := st.updated + 1,
            processed := st.processed + 1 } := by
      simp [aplicarLinhaGrade, if_neg hval, hgs, upsertLoteBase, hgl]
    rw [hres, aplicaOp, opSkuGrade, hgs, aplicaOp, opLoteGrade, hgl]
    refine ⟨rfl, rfl, rfl, rfl, rfl, ?_, fun _ => rfl⟩
    show st.created + (st.updated + 1) = st.created + st.updated + 1
    omega
  · have hgs := getOrCreate_atualizado chaveSku (pstrip r.codigo_sku, u)
      (patchSkuGrade r) (freshSkuGrade (pstrip r.codigo_sku) u r)
      st.db.skus hs
    have hgl := getOrCreate_atualizado chaveLoteGrade
      (pstrip r.codigo_sku, u, "BASE", none) (patchLoteGrade r)
      (freshLoteGrade (pstrip r.codigo_sku) u r) st.db.lotes hl
    have hres : aplicarLinhaGrade u st (idx, r) =
        { st with
            db := { skus := st.db.skus.map (fun x =>
                      if chaveSku x = (pstrip r.codigo_sku, u)
                      then patchSkuGrade r x else x),
                    lotes := st.db.lotes.map (fun x =>
                      if chaveLoteGrade x = (pstrip r.codigo_sku, u, "BASE", none)
                      then patchLoteGrade r x else x) },
            updated := st.updated + 1,
            processed := st.processed + 1 } := by
      simp [aplicarLinhaGrade, if_neg hval, hgs, upsertLoteBase, hgl]
    rw [hres, aplicaOp, opSkuGrade, hgs, aplicaOp, opLoteGrade, hgl]
    refine ⟨rfl, rfl, rfl, rfl, rfl, ?_, fun _ => rfl⟩
    show st.created + (st.updated + 1) = st.created + st.updated + 1
    omega

lemma db_eq_of_campos (a b : DB) (hs : a.skus = b.skus)
    (hl : a.lotes = b.lotes) : a = b := by
  cases a
  cases b
  exact congr (congrArg DB.mk hs) hl

lemma processarLinhasGrade_caracteriza (u : Nat) :
    ∀ (linhas : List (Nat × GradeRow)) (st : ImportState),
      (∀ k, conta chaveSku st.db.skus k ≤ 1) →
      (∀ k, conta chaveLoteGrade st.db.lotes k ≤ 1) →
      (processarLinhasGrade u st linhas).db.skus =
        corre chaveSku st.db.skus (opsSkuGrade u (linhas.map Prod.snd)) ∧
      (processarLinhasGrade u st linhas).db.lotes =
        corre chaveLoteGrade st.db.lotes
          (opsLoteGrade u (linhas.map Prod.snd)) ∧
      (processarLinhasGrade u st linhas).errors = st.errors ∧
      (processarLinhasGrade u st linhas).warnings = st.warnings ∧
      (processarLinhasGrade u st linhas).created +
          (processarLinhasGrade u st linhas).updated =
        st.created + st.updated +
          ((linhas.map Prod.snd).filter linhaGradeValida).length ∧
      ((∀ o ∈ opsSkuGrade u (linhas.map Prod.snd),
          conta chaveSku st.db.skus o.key = 1) →
        (processarLinhasGrade u st linhas).created = st.created) := by
  intro linhas
  induction linhas with
  | nil =>
    intro st _ _
    exact ⟨rfl, rfl, rfl, rfl, by simp [processarLinhasGrade, opsSkuGrade,
      corre], fun _ => rfl⟩
  | cons ir rest ih =>
    obtain ⟨i, r⟩ := ir
    intro st hsku hlote
    by_cases hval : (pstrip r.codigo_sku = "" ∨ pstrip r.codigo_sku = "nan")
    · have hstep : aplicarLinhaGrade u st (i, r) = st := by
        simp [aplicarLinhaGrade, if_pos hval]
      have hrun : processarLinhasGrade u st ((i, r) :: rest) =
          processarLinhasGrade u st rest := by
        show processarLinhasGrade u (aplicarLinhaGrade u st (i, r)) rest = _
        rw [hstep]
      have hvalbool : linhaGradeValida r = false := by
        simp [linhaGradeValida, hval]
      have hfiltro : ((((i, r) :: rest).map Prod.snd).filter linhaGradeValida)
          = ((rest.map Prod.snd).filter linhaGradeValida) := by
        simp [List.filter_cons, hvalbool]
      have hops : opsSkuGrade u (((i, r) :: rest).map Prod.snd) =
          opsSkuGrade u (rest.map Prod.snd) := by
        simp [opsSkuGrade, List.filter_cons, hvalbool]
      have hopsL : opsLoteGrade u (((i, r) :: rest).map Prod.snd) =
          opsLoteGrade u (rest.map Prod.snd) := by
        simp [opsLoteGrade, List.filter_cons, hvalbool]
      rw [hrun, hfiltro, hops, hopsL]
      exact ih st hsku hlote
    · obtain ⟨h1, h2, h3, h4, h5, h6, h7⟩ :=
        aplicarLinhaGrade_valida u i r st hval
          (hsku (pstrip r.codigo_sku, u))
          (hlote (pstrip r.codigo_sku, u, "BASE", none))
      have hsku2 : ∀ k,
          conta chaveSku (aplicarLinhaGrade u st (i, r)).db.skus k ≤ 1 := by
        rw [h1]
        exact conta_aplicaOp_le chaveSku st.db.skus (opSkuGrade u r) rfl
          (fun x => rfl) hsku
      have hlote2 : ∀ k,
          conta chaveLoteGrade (aplicarLinhaGrade u st (i, r)).db.lotes k
            ≤ 1 := by
        rw [h2]
        exact conta_aplicaOp_le chaveLoteGrade st.db.lotes (opLoteGrade u r)
          rfl (fun x => rfl) hlote
      obtain ⟨g1, g2, g3, g4, g5, g6⟩ :=
        ih (aplicarLinhaGrade u st (i, r)) hsku2 hlote2
      have hrun : processarLinhasGrade u st ((i, r) :: rest) =
          processarLinhasGrade u (aplicarLinhaGrade u st (i, r)) rest := rfl
      have hvalbool : linhaGradeValida r = true := by
        simp [linhaGradeValida, hval]
      have hops : opsSkuGrade u (((i, r) :: rest).map Prod.snd) =
          opSkuGrade u r :: opsSkuGrade u (rest.map Prod.snd) := by
        simp [opsSkuGrade, List.filter_cons, hvalbool]
      have hopsL : opsLoteGrade u (((i, r) :: rest).map Prod.snd) =
          opLoteGrade u r :: opsLoteGrade u (rest.map Prod.snd) := by
        simp [opsLoteGrade, List.filter_cons, hvalbool]
      have hlen : ((((i, r) :: rest).map Prod.snd).filter
          linhaGradeValida).length =
          ((rest.map Prod.snd).filter linhaGradeValida).length + 1 := by
        simp [List.filter_cons, hvalbool]
      refine ⟨?_, ?_, ?_, ?_, ?_, ?_⟩
      · rw [hrun, g1, h1, hops, corre_cons]
      · rw [hrun, g2, h2, hopsL, corre_cons]
      · rw [hrun, g3, h3]
      · rw [hrun, g4, h4]
      · rw [hrun, hlen]
        omega
      · intro hcount
        rw [hops] at hcount
        have hhead : conta chaveSku st.db.skus (pstrip r.codigo_sku, u) = 1 :=
          hcount (opSkuGrade u r) (List.mem_cons_self _ _)
        have hpreserve : ∀ o ∈ opsSkuGrade u (rest.map Prod.snd),
            conta chaveSku (aplicarLinhaGrade u st (i, r)).db.skus o.key
              = 1 := by
          intro o ho
          rw [h1, aplicaOp_atualizado chaveSku st.db.skus (opSkuGrade u r)
            hhead, conta_map_patchIf chaveSku st.db.skus (opSkuGrade u r).key
              (opSkuGrade u r).patch (fun x => rfl)]
          exact hcount o (List.mem_cons_of_mem _ ho)
        rw [hrun, g6 hpreserve, h7 hhead]

/-- C3: re-running the same grade (aggregate stock) import on the store it
produced leaves the store unchanged — each product's BASE lot (null
expiration date) has its quantity overwritten, not accumulated — and the
second run creates nothing while its updated count equals the first run's
`created + updated`.  The two `conta … ≤ 1` hypotheses are the store's
`unique_together` constraints on `(codigo_sku, unidade_negocio)` and
`(sku, numero_lote)`. -/
theorem processar_grade_idempotente
    (u : Nat) (cols : List String) (linhas : List GradeRow) (db : DB)
    (hsku : ∀ k, conta chaveSku db.skus k ≤ 1)
    (hlote : ∀ k, conta chaveLoteGrade db.lotes k ≤ 1) :
    (processar_grade_020502 u cols linhas
        (processar_grade_020502 u cols linhas db).2).2 =
      (processar_grade_020502 u cols linhas db).2 ∧
    (processar_grade_020502 u cols linhas
        (processar_grade_020502 u cols linhas db).2).1.created = 0 ∧
    (processar_grade_020502 u cols linhas
        (processar_grade_020502 u cols linhas db).2).1.updated =
      (processar_grade_020502 u cols linhas db).1.created +
        (processar_grade_020502 u cols linhas db).1.updated := by
  by_cases hcols : colunasFaltantes ["codigo_sku", "qtd_estoque"]
      (renomeiaColunas COLUNAS_GRADE_020502 cols) = []
  · have hok : ∀ d : DB, processar_grade_020502 u cols linhas d =
        (buildResult (processarLinhasGrade u (estadoInicial d) linhas.enum),
          (processarLinhasGrade u (estadoInicial d) linhas.enum).db) := by
      intro d
      simp only [processar_grade_020502]
      rw [if_pos hcols]
    obtain ⟨a1, a2, _, _, a5, _⟩ :=
      processarLinhasGrade_caracteriza u linhas.enum (estadoInicial db)
        hsku hlote
    set S1 := processarLinhasGrade u (estadoInicial db) linhas.enum with hS1
    have hskuS1 : ∀ k, conta chaveSku S1.db.skus k ≤ 1 := by
      rw [a1]
      exact corre_unique chaveSku _ db.skus (opsBoas_opsSkuGrade u _) hsku
    have hloteS1 : ∀ k, conta chaveLoteGrade S1.db.lotes k ≤ 1 := by
      rw [a2]
      exact corre_unique chaveLoteGrade _ db.lotes
        (opsBoas_opsLoteGrade u _) hlote
    obtain ⟨b1, b2, _, _, b5, b6⟩ :=
      processarLinhasGrade_caracteriza u linhas.enum (estadoInicial S1.db)
        hskuS1 hloteS1
    set S2 := processarLinhasGrade u (estadoInicial S1.db) linhas.enum
      with hS2
    have hsku_eq : S2.db.skus = S1.db.skus := by
      rw [b1]
      show corre chaveSku S1.db.skus
        (opsSkuGrade u (linhas.enum.map Prod.snd)) = S1.db.skus
      rw [a1]
      exact corre_idempotente chaveSku _ db.skus (opsBoas_opsSkuGrade u _)
        hsku
    have hlote_eq : S2.db.lotes = S1.db.lotes := by
      rw [b2]
      show corre chaveLoteGrade S1.db.lotes
        (opsLoteGrade u (linhas.enum.map Prod.snd)) = S1.db.lotes
      rw [a2]
      exact corre_idempotente chaveLoteGrade _ db.lotes
        (opsBoas_opsLoteGrade u _) hlote
    have htouch : ∀ o ∈ opsSkuGrade u (linhas.enum.map Prod.snd),
        conta chaveSku S1.db.skus o.key = 1 := by
      intro o ho
      rw [a1]
      exact conta_corre_touched chaveSku _ db.skus
        (opsBoas_opsSkuGrade u _) hsku o ho
    have hc2 : S2.created = 0 := b6 htouch
    have hb5 : S2.created + S2.updated = 0 + 0 +
        ((linhas.enum.map Prod.snd).filter linhaGradeValida).length := b5
    have ha5 : S1.created + S1.updated = 0 + 0 +
        ((linhas.enum.map Prod.snd).filter linhaGradeValida).length := a5
    have key0 : processar_grade_020502 u cols linhas db =
        (buildResult S1, S1.db) := hok db
    have key1 : processar_grade_020502 u cols linhas
        (processar_grade_020502 u cols linhas db).2 =
        (buildResult S2, S2.db) := by
      rw [key0]
      exact hok S1.db
    rw [key1, key0]
    refine ⟨db_eq_of_campos S2.db S1.db hsku_eq hlote_eq, hc2, ?_⟩
    show S2.updated = S1.created + S1.updated
    omega
  · have hfail : ∀ d : DB, processar_grade_020502 u cols linhas d =
        (resultadoFalha "Colunas obrigatorias nao encontradas", d) := by
      intro d
      simp only [processar_grade_020502]
      rw [if_neg hcols]
    have key0 := hfail db
    have key1 : processar_grade_020502 u cols linhas
        (processar_grade_020502 u cols linhas db).2 =
        (resultadoFalha "Colunas obrigatorias nao encontradas", db) := by
      rw [key0]
      exact hfail db
    rw [key1, key0]
    exact ⟨rfl, rfl, rfl⟩

/-- Witness for C3: importing the same two-row grade file twice over an
initially empty store gives the same store, zero creates on the second run,
and two updates matching the first run's two creates. -/
theorem processar_grade_idempotente_witness :
    (processar_grade_020502 7 ["Produto", "Qtd Contagem"]
        [⟨"P1", "Coca", "un", 6, "", 50⟩, ⟨"P2", "Fanta", "cx", 12, "", 30⟩]
        (processar_grade_020502 7 ["Produto", "Qtd Contagem"]
          [⟨"P1", "Coca", "un", 6, "", 50⟩, ⟨"P2", "Fanta", "cx", 12, "", 30⟩]
          ⟨[], []⟩).2).2 =
      (processar_grade_020502 7 ["Produto", "Qtd Contagem"]
        [⟨"P1", "Coca", "un", 6, "", 50⟩, ⟨"P2", "Fanta", "cx", 12, "", 30⟩]
        ⟨[], []⟩).2 ∧
    (processar_grade_020502 7 ["Produto", "Qtd Contagem"]
        [⟨"P1", "Coca", "un", 6, "", 50⟩, ⟨"P2", "Fanta", "cx", 12, "", 30⟩]
        (processar_grade_020502 7 ["Produto", "Qtd Contagem"]
          [⟨"P1", "Coca", "un", 6, "", 50⟩, ⟨"P2", "Fanta", "cx", 12, "", 30⟩]
          ⟨[], []⟩).2).1.created = 0 ∧
    (processar_grade_020502 7 ["Produto", "Qtd Contagem"]
        [⟨"P1", "Coca", "un", 6, "", 50⟩, ⟨"P2", "Fanta", "cx", 12, "", 30⟩]
        (processar_grade_020502 7 ["Produto", "Qtd Contagem"]
          [⟨"P1", "Coca", "un", 6, "", 50⟩, ⟨"P2", "Fanta", "cx", 12, "", 30⟩]
          ⟨[], []⟩).2).1.updated =
      (processar_grade_020502 7 ["Produto", "Qtd Contagem"]
        [⟨"P1", "Coca", "un", 6, "", 50⟩, ⟨"P2", "Fanta", "cx", 12, "", 30⟩]
        ⟨[], []⟩).1.created +
      (processar_grade_020502 7 ["Produto", "Qtd Contagem"]
        [⟨"P1", "Coca", "un", 6, "", 50⟩, ⟨"P2", "Fanta", "cx", 12, "", 30⟩]
        ⟨[], []⟩).1.updated :=
  processar_grade_idempotente 7 ["Produto", "Qtd Contagem"]
    [⟨"P1", "Coca", "un", 6, "", 50⟩, ⟨"P2", "Fanta", "cx", 12, "", 30⟩]
    ⟨[], []⟩ (fun _ => Nat.zero_le 1) (fun _ => Nat.zero_le 1)

end SkuPlus
